import Mathlib

/-!
# Verification of the alloy ID3v2.4 tag codec

A shallow embedding, in Lean 4, of the core of the `alloy` repository
(an ID3v2.4 metadata-tag codec written in Rust), together with proofs and
refutations of the specification claims about it.

Modelling conventions:

* Rust `u8`/`u32`/`u64`/`usize` values are modelled as `Nat`.  Where the
  source wraps (release-mode `+=`/`-=` on `u32`) we write the wrap
  explicitly as arithmetic `% 2 ^ 32`.  `u8::try_from(x).unwrap()` on the
  synchsafe codec outputs cannot panic (each output is `< 128`); this is
  proved rather than assumed (see the C10 theorem).
* Rust `Vec<u8>`, `String` and `&str` are modelled as `List Nat` (the
  UTF-8 bytes).  `String::from_utf8(..).unwrap()` is modelled by a
  faithful UTF-8 validity check (`utf8Valid`); on invalid input it
  panics, and on valid input comparing decoded strings is byte equality.
* Functions that can panic (out-of-bounds indexing, failed `assert!`,
  `.unwrap()` on an `Err`) return `Except Fail _`, where `Fail.panic`
  models a Rust panic and `Fail.rerr e` models an `Err(e)` return value
  of a function whose Rust type is `Result<_, String>`.  The `String`
  error payloads of the source are modelled by the inductive `TagError`,
  one constructor per distinct format string in the source.
-/

namespace Alloy

/-! ## Integer codec (src/utility.rs) -/

/-- `convert_safesynch_to_u32` from src/utility.rs lines 1-3. -/
def convert_safesynch_to_u32 (byte0 byte1 byte2 byte3 : Nat) : Nat :=
  byte0 <<< 21 ||| byte1 <<< 14 ||| byte2 <<< 7 ||| byte3

/-- `convert_safesynch_to_u64` from src/utility.rs lines 5-11. -/
def convert_safesynch_to_u64 (byte0 byte1 byte2 byte3 byte4 : Nat) : Nat :=
  byte0 <<< 28 ||| byte1 <<< 21 ||| byte2 <<< 14 ||| byte3 <<< 7 ||| byte4

/-- `convert_u32_to_safesynch` from src/utility.rs lines 13-20.
The `u8::try_from(..).unwrap()` around each component is dealt with by the
separate proofs that every component is `< 128`. -/
def convert_u32_to_safesynch (value : Nat) : List Nat :=
  let byte0 := (value &&& 0b00001111111000000000000000000000) >>> 21
  let byte1 := (value &&& 0b00000000000111111100000000000000) >>> 14
  let byte2 := (value &&& 0b00000000000000000011111110000000) >>> 7
  let byte3 := value &&& 0b00000000000000000000000001111111
  [byte0, byte1, byte2, byte3]

/-- `convert_u64_to_safesynch` from src/utility.rs lines 22-30. -/
def convert_u64_to_safesynch (value : Nat) : List Nat :=
  let byte0 := (value &&& 0b11111110000000000000000000000000000) >>> 28
  let byte1 := (value &&& 0b00001111111000000000000000000000) >>> 21
  let byte2 := (value &&& 0b00000000000111111100000000000000) >>> 14
  let byte3 := (value &&& 0b00000000000000000011111110000000) >>> 7
  let byte4 := value &&& 0b00000000000000000000000001111111
  [byte0, byte1, byte2, byte3, byte4]

/-! ### Bit-level helper lemmas for the codec -/

lemma and_mask_shiftRight (v k m : Nat) :
    (v &&& ((2 ^ m - 1) <<< k)) >>> k = v / 2 ^ k % 2 ^ m := by
  have hdiv : v / 2 ^ k = v >>> k := (Nat.shiftRight_eq_div_pow v k).symm
  apply Nat.eq_of_testBit_eq
  intro i
  rw [hdiv, Nat.testBit_shiftRight, Nat.testBit_land, Nat.testBit_shiftLeft,
    Nat.testBit_two_pow_sub_one, Nat.testBit_mod_two_pow, Nat.testBit_shiftRight,
    Nat.add_sub_cancel_left]
  simp [Bool.and_comm]

lemma shiftLeft_or_eq_add {b k : Nat} (a : Nat) (h : b < 2 ^ k) :
    (a <<< k) ||| b = a * 2 ^ k + b := by
  apply Nat.eq_of_testBit_eq
  intro i
  rw [Nat.testBit_lor, Nat.testBit_shiftLeft,
    show a * 2 ^ k + b = 2 ^ k * a + b by ring,
    Nat.testBit_mul_pow_two_add a h i]
  by_cases hik : i < k
  · have hge : ¬ i ≥ k := by omega
    rw [if_pos hik]
    simp [hge]
  · have hb : b.testBit i = false :=
      Nat.testBit_lt_two_pow (lt_of_lt_of_le h (Nat.pow_le_pow_right (by omega) (by omega)))
    have hge : i ≥ k := by omega
    rw [if_neg hik, hb]
    simp [hge]

lemma shiftLeft_lt_pow {a m : Nat} (k : Nat) (h : a < 2 ^ m) :
    a <<< k < 2 ^ (m + k) := by
  rw [Nat.shiftLeft_eq, Nat.pow_add]
  exact Nat.mul_lt_mul_of_lt_of_le h (Nat.le_refl _) (Nat.pos_pow_of_pos k (by omega))

/-- Decoding the 4-byte synchsafe encoding of `v` yields `v % 2 ^ 28`:
the encoder masks away every bit above bit 27. -/
lemma decode_encode32 (v : Nat) :
    convert_safesynch_to_u32 ((convert_u32_to_safesynch v).getD 0 0)
      ((convert_u32_to_safesynch v).getD 1 0)
      ((convert_u32_to_safesynch v).getD 2 0)
      ((convert_u32_to_safesynch v).getD 3 0) = v % 2 ^ 28 := by
  have m21 : (0b00001111111000000000000000000000 : Nat) = (2 ^ 7 - 1) <<< 21 := by decide
  have m14 : (0b00000000000111111100000000000000 : Nat) = (2 ^ 7 - 1) <<< 14 := by decide
  have m7 : (0b00000000000000000011111110000000 : Nat) = (2 ^ 7 - 1) <<< 7 := by decide
  have m0 : (0b00000000000000000000000001111111 : Nat) = 2 ^ 7 - 1 := by decide
  simp only [convert_u32_to_safesynch, convert_safesynch_to_u32, List.getD_cons_zero,
    List.getD_cons_succ, m21, m14, m7, m0, and_mask_shiftRight,
    Nat.and_pow_two_sub_one_eq_mod]
  have h7 : (v / 2 ^ 7 % 2 ^ 7) <<< 7 ||| v % 2 ^ 7 =
      (v / 2 ^ 7 % 2 ^ 7) * 2 ^ 7 + v % 2 ^ 7 :=
    shiftLeft_or_eq_add _ (Nat.mod_lt _ (by norm_num))
  have h14 : (v / 2 ^ 14 % 2 ^ 7) <<< 14 ||| ((v / 2 ^ 7 % 2 ^ 7) * 2 ^ 7 + v % 2 ^ 7) =
      (v / 2 ^ 14 % 2 ^ 7) * 2 ^ 14 + ((v / 2 ^ 7 % 2 ^ 7) * 2 ^ 7 + v % 2 ^ 7) := by
    refine shiftLeft_or_eq_add _ ?_
    have h1 : v / 2 ^ 7 % 2 ^ 7 < 2 ^ 7 := Nat.mod_lt _ (by norm_num)
    have h2 : v % 2 ^ 7 < 2 ^ 7 := Nat.mod_lt _ (by norm_num)
    omega
  have h21 : (v / 2 ^ 21 % 2 ^ 7) <<< 21 |||
      ((v / 2 ^ 14 % 2 ^ 7) * 2 ^ 14 + ((v / 2 ^ 7 % 2 ^ 7) * 2 ^ 7 + v % 2 ^ 7)) =
      (v / 2 ^ 21 % 2 ^ 7) * 2 ^ 21 +
        ((v / 2 ^ 14 % 2 ^ 7) * 2 ^ 14 + ((v / 2 ^ 7 % 2 ^ 7) * 2 ^ 7 + v % 2 ^ 7)) := by
    refine shiftLeft_or_eq_add _ ?_
    have h1 : v / 2 ^ 14 % 2 ^ 7 < 2 ^ 7 := Nat.mod_lt _ (by norm_num)
    have h2 : v / 2 ^ 7 % 2 ^ 7 < 2 ^ 7 := Nat.mod_lt _ (by norm_num)
    have h3 : v % 2 ^ 7 < 2 ^ 7 := Nat.mod_lt _ (by norm_num)
    omega
  rw [Nat.or_assoc, Nat.or_assoc, h7, h14, h21]
  omega

/-- Decoding the 5-byte synchsafe encoding of `v` yields `v % 2 ^ 35`. -/
lemma decode_encode64 (v : Nat) :
    convert_safesynch_to_u64 ((convert_u64_to_safesynch v).getD 0 0)
      ((convert_u64_to_safesynch v).getD 1 0)
      ((convert_u64_to_safesynch v).getD 2 0)
      ((convert_u64_to_safesynch v).getD 3 0)
      ((convert_u64_to_safesynch v).getD 4 0) = v % 2 ^ 35 := by
  have m28 : (0b11111110000000000000000000000000000 : Nat) = (2 ^ 7 - 1) <<< 28 := by decide
  have m21 : (0b00001111111000000000000000000000 : Nat) = (2 ^ 7 - 1) <<< 21 := by decide
  have m14 : (0b00000000000111111100000000000000 : Nat) = (2 ^ 7 - 1) <<< 14 := by decide
  have m7 : (0b00000000000000000011111110000000 : Nat) = (2 ^ 7 - 1) <<< 7 := by decide
  have m0 : (0b00000000000000000000000001111111 : Nat) = 2 ^ 7 - 1 := by decide
  simp only [convert_u64_to_safesynch, convert_safesynch_to_u64, List.getD_cons_zero,
    List.getD_cons_succ, m28, m21, m14, m7, m0, and_mask_shiftRight,
    Nat.and_pow_two_sub_one_eq_mod]
  have b1lt : v / 2 ^ 21 % 2 ^ 7 < 2 ^ 7 := Nat.mod_lt _ (by norm_num)
  have b2lt : v / 2 ^ 14 % 2 ^ 7 < 2 ^ 7 := Nat.mod_lt _ (by norm_num)
  have b3lt : v / 2 ^ 7 % 2 ^ 7 < 2 ^ 7 := Nat.mod_lt _ (by norm_num)
  have b4lt : v % 2 ^ 7 < 2 ^ 7 := Nat.mod_lt _ (by norm_num)
  have h7 : (v / 2 ^ 7 % 2 ^ 7) <<< 7 ||| v % 2 ^ 7 =
      (v / 2 ^ 7 % 2 ^ 7) * 2 ^ 7 + v % 2 ^ 7 :=
    shiftLeft_or_eq_add _ b4lt
  have h14 : (v / 2 ^ 14 % 2 ^ 7) <<< 14 ||| ((v / 2 ^ 7 % 2 ^ 7) * 2 ^ 7 + v % 2 ^ 7) =
      (v / 2 ^ 14 % 2 ^ 7) * 2 ^ 14 + ((v / 2 ^ 7 % 2 ^ 7) * 2 ^ 7 + v % 2 ^ 7) :=
    shiftLeft_or_eq_add _ (by omega)
  have h21 : (v / 2 ^ 21 % 2 ^ 7) <<< 21 |||
      ((v / 2 ^ 14 % 2 ^ 7) * 2 ^ 14 + ((v / 2 ^ 7 % 2 ^ 7) * 2 ^ 7 + v % 2 ^ 7)) =
      (v / 2 ^ 21 % 2 ^ 7) * 2 ^ 21 +
        ((v / 2 ^ 14 % 2 ^ 7) * 2 ^ 14 + ((v / 2 ^ 7 % 2 ^ 7) * 2 ^ 7 + v % 2 ^ 7)) :=
    shiftLeft_or_eq_add _ (by omega)
  have h28 : (v / 2 ^ 28 % 2 ^ 7) <<< 28 |||
      ((v / 2 ^ 21 % 2 ^ 7) * 2 ^ 21 +
        ((v / 2 ^ 14 % 2 ^ 7) * 2 ^ 14 + ((v / 2 ^ 7 % 2 ^ 7) * 2 ^ 7 + v % 2 ^ 7))) =
      (v / 2 ^ 28 % 2 ^ 7) * 2 ^ 28 +
        ((v / 2 ^ 21 % 2 ^ 7) * 2 ^ 21 +
          ((v / 2 ^ 14 % 2 ^ 7) * 2 ^ 14 + ((v / 2 ^ 7 % 2 ^ 7) * 2 ^ 7 + v % 2 ^ 7))) :=
    shiftLeft_or_eq_add _ (by omega)
  rw [Nat.or_assoc, Nat.or_assoc, Nat.or_assoc, h7, h14, h21, h28]
  omega

/-! ## Claims C9 and C10 -/

/-- C9: for every `v` in `[0, 2^28 - 1]`, `convert_safesynch_to_u32` applied to
the four bytes of `convert_u32_to_safesynch v` returns `v`. -/
theorem synchsafe32_roundtrip (v : Nat) (h : v < 2 ^ 28) :
    convert_safesynch_to_u32 ((convert_u32_to_safesynch v).getD 0 0)
      ((convert_u32_to_safesynch v).getD 1 0)
      ((convert_u32_to_safesynch v).getD 2 0)
      ((convert_u32_to_safesynch v).getD 3 0) = v := by
  rw [decode_encode32]
  exact Nat.mod_eq_of_lt h

theorem synchsafe32_roundtrip_witness :
    19088743 < 2 ^ 28 ∧
      convert_safesynch_to_u32 ((convert_u32_to_safesynch 19088743).getD 0 0)
        ((convert_u32_to_safesynch 19088743).getD 1 0)
        ((convert_u32_to_safesynch 19088743).getD 2 0)
        ((convert_u32_to_safesynch 19088743).getD 3 0) = 19088743 :=
  ⟨by decide, synchsafe32_roundtrip 19088743 (by decide)⟩

/-- C10: the 5-byte synchsafe codec used for the extended-header CRC is a
35-bit codec: decoding the encoding of `v` returns `v` for `v < 2 ^ 35`, the
encoder silently discards the bits above bit 34
(`encode v = encode (v % 2 ^ 35)`), and every emitted byte fits in a `u8`
(`< 256`, in fact `< 128`), so the `u8::try_from(..).unwrap()` calls in the
encoder never panic. -/
theorem synchsafe64_crc_codec (v : Nat) :
    (v < 2 ^ 35 →
      convert_safesynch_to_u64 ((convert_u64_to_safesynch v).getD 0 0)
        ((convert_u64_to_safesynch v).getD 1 0)
        ((convert_u64_to_safesynch v).getD 2 0)
        ((convert_u64_to_safesynch v).getD 3 0)
        ((convert_u64_to_safesynch v).getD 4 0) = v)
    ∧ convert_u64_to_safesynch v = convert_u64_to_safesynch (v % 2 ^ 35)
    ∧ (∀ b ∈ convert_u64_to_safesynch v, b < 256) := by
  have m28 : (0b11111110000000000000000000000000000 : Nat) = (2 ^ 7 - 1) <<< 28 := by decide
  have m21 : (0b00001111111000000000000000000000 : Nat) = (2 ^ 7 - 1) <<< 21 := by decide
  have m14 : (0b00000000000111111100000000000000 : Nat) = (2 ^ 7 - 1) <<< 14 := by decide
  have m7 : (0b00000000000000000011111110000000 : Nat) = (2 ^ 7 - 1) <<< 7 := by decide
  have m0 : (0b00000000000000000000000001111111 : Nat) = 2 ^ 7 - 1 := by decide
  refine ⟨fun h => by rw [decode_encode64]; exact Nat.mod_eq_of_lt h, ?_, ?_⟩
  · simp only [convert_u64_to_safesynch, m28, m21, m14, m7, m0, and_mask_shiftRight,
      Nat.and_pow_two_sub_one_eq_mod, List.cons.injEq, and_true]
    refine ⟨by omega, by omega, by omega, by omega, by omega⟩
  · simp only [convert_u64_to_safesynch, m28, m21, m14, m7, m0, and_mask_shiftRight,
      Nat.and_pow_two_sub_one_eq_mod, List.mem_cons, List.not_mem_nil, or_false]
    rintro b (rfl | rfl | rfl | rfl | rfl) <;>
      exact lt_of_lt_of_le (Nat.mod_lt _ (by norm_num)) (by norm_num)

theorem synchsafe64_crc_codec_witness :
    convert_safesynch_to_u64 ((convert_u64_to_safesynch 123456789).getD 0 0)
      ((convert_u64_to_safesynch 123456789).getD 1 0)
      ((convert_u64_to_safesynch 123456789).getD 2 0)
      ((convert_u64_to_safesynch 123456789).getD 3 0)
      ((convert_u64_to_safesynch 123456789).getD 4 0) = 123456789 ∧
      convert_u64_to_safesynch (2 ^ 35 + 9) = convert_u64_to_safesynch 9 := by
  constructor
  · exact (synchsafe64_crc_codec 123456789).1 (by decide)
  · have h := (synchsafe64_crc_codec (2 ^ 35 + 9)).2.1
    rwa [show (2 ^ 35 + 9) % 2 ^ 35 = 9 by decide] at h

/-! ## Error and panic model -/

/-- The distinct `Err(..)` string payloads of the source, one constructor per
format string: `"not a valid ID3v2.4 tag (..)"` (src/parse.rs line 8),
`"Unknown frame id .."` (src/parse.rs line 180), and
`"attempting to set a non-text frame as a picture frame"`
(src/tag.rs line 274). -/
inductive TagError
  | notAnId3Tag (b0 b1 b2 : Nat)
  | unknownFrame (id : List Nat)
  | nonTextAsPicture
  deriving DecidableEq

/-- A failing outcome: a Rust panic, or an `Err(e)` value returned by a
function of Rust type `Result<_, String>`. -/
inductive Fail
  | panic
  | rerr (e : TagError)
  deriving DecidableEq

abbrev RustM (α : Type) := Except Fail α

instance {ε α : Type} [DecidableEq ε] [DecidableEq α] : DecidableEq (Except ε α) :=
  fun x y =>
    match x, y with
    | .ok a, .ok b =>
      if h : a = b then isTrue (by rw [h]) else isFalse (by simp [h])
    | .error a, .error b =>
      if h : a = b then isTrue (by rw [h]) else isFalse (by simp [h])
    | .ok _, .error _ => isFalse (by simp)
    | .error _, .ok _ => isFalse (by simp)

/-- Rust `v[i]` on a `Vec<u8>`: the value, or a panic when out of bounds. -/
def vecIdx (l : List Nat) (i : Nat) : RustM Nat :=
  match l.get? i with
  | some v => .ok v
  | none => .error .panic

/-- `.unwrap()` on a value of Rust type `Result<..>`: `Err` becomes a panic. -/
def unwrapR {α : Type} : RustM α → RustM α
  | .ok a => .ok a
  | .error _ => .error .panic

/-! ## UTF-8 validity (Rust `String::from_utf8(..).unwrap()`) -/

/-- A UTF-8 continuation byte, `0x80..=0xBF`. -/
def isCont (b : Nat) : Bool := 0x80 ≤ b && b ≤ 0xBF

/-- UTF-8 validity of a byte sequence, as checked by Rust
`String::from_utf8`; `..unwrap()` panics exactly when this is false. -/
def utf8Valid : List Nat → Bool
  | [] => true
  | b :: rest =>
    if b ≤ 0x7F then utf8Valid rest
    else if 0xC2 ≤ b && b ≤ 0xDF then
      match rest with
      | b2 :: r => isCont b2 && utf8Valid r
      | [] => false
    else if 0xE0 ≤ b && b ≤ 0xEF then
      match rest with
      | b2 :: b3 :: r =>
        (if b = 0xE0 then 0xA0 ≤ b2 && b2 ≤ 0xBF
         else if b = 0xED then 0x80 ≤ b2 && b2 ≤ 0x9F
         else isCont b2) && isCont b3 && utf8Valid r
      | _ => false
    else if 0xF0 ≤ b && b ≤ 0xF4 then
      match rest with
      | b2 :: b3 :: b4 :: r =>
        (if b = 0xF0 then 0x90 ≤ b2 && b2 ≤ 0xBF
         else if b = 0xF4 then 0x80 ≤ b2 && b2 ≤ 0x8F
         else isCont b2) && isCont b3 && isCont b4 && utf8Valid r
      | _ => false
    else false
/-! ## String literals used by the source, as UTF-8 byte lists -/

def strTIT2 : List Nat := [0x54, 0x49, 0x54, 0x32]

def strTALB : List Nat := [0x54, 0x41, 0x4C, 0x42]

def strTPE1 : List Nat := [0x54, 0x50, 0x45, 0x31]

def strTPE2 : List Nat := [0x54, 0x50, 0x45, 0x32]

def strTSSE : List Nat := [0x54, 0x53, 0x53, 0x45]

def strAPIC : List Nat := [0x41, 0x50, 0x49, 0x43]

/-- `"image/png"` -/
def strImagePng : List Nat := [105, 109, 97, 103, 101, 47, 112, 110, 103]

/-- `"image/jpeg"` -/
def strImageJpeg : List Nat := [105, 109, 97, 103, 101, 47, 106, 112, 101, 103]

/-- `"image/"`, the string `MimeType::Unknown` prints to (src/main.rs lines
21-35, the only `MimeType`-to-string conversion in the repository). -/
def strImageUnknown : List Nat := [105, 109, 97, 103, 101, 47]

/-! ## Data model (src/tag.rs) -/

/-- `Id3v2Header` (src/tag.rs lines 12-18): 3 identifier bytes, 2 version
bytes, one flags byte and the synchsafe size field. -/
structure Id3v2Header where
  id0 : Nat
  id1 : Nat
  id2 : Nat
  ver0 : Nat
  ver1 : Nat
  flags : Nat
  size : Nat
  deriving DecidableEq

/-- `Id3v2Header::into_bytes` (src/tag.rs lines 20-29). -/
def Id3v2Header.into_bytes (h : Id3v2Header) : List Nat :=
  [h.id0, h.id1, h.id2] ++ [h.ver0, h.ver1] ++ [h.flags] ++ convert_u32_to_safesynch h.size

/-- `Id3v2ExtendedHeader` (src/tag.rs lines 31-41). -/
structure Id3v2ExtendedHeader where
  size : Nat
  number_of_flag_bytes : Nat
  flags : Nat
  b_flag_length : Nat
  c_flag_length : Nat
  total_frame_crc : Option Nat
  d_flag_length : Nat
  restrictions : Option Nat
  deriving DecidableEq

/-- `Id3v2ExtendedHeader::into_bytes` (src/tag.rs lines 43-72). -/
def Id3v2ExtendedHeader.into_bytes (e : Id3v2ExtendedHeader) : List Nat :=
  convert_u32_to_safesynch e.size ++ [e.number_of_flag_bytes] ++ [e.flags]
    ++ [e.b_flag_length] ++ [e.c_flag_length]
    ++ (match e.total_frame_crc with
        | some crc => convert_u64_to_safesynch crc
        | none => [])
    ++ [e.d_flag_length]
    ++ (match e.restrictions with
        | some r => [r]
        | none => [])

/-- `Id3v2FrameHeader` (src/tag.rs lines 74-79): 4 identifier bytes, the
synchsafe size and 2 flag bytes. -/
structure Id3v2FrameHeader where
  fid0 : Nat
  fid1 : Nat
  fid2 : Nat
  fid3 : Nat
  size : Nat
  fl0 : Nat
  fl1 : Nat
  deriving DecidableEq

/-- The identifier of a frame header as the byte list that
`Id3v2FrameHeader::id_str` (src/tag.rs lines 82-84) compares; for valid
UTF-8 identifiers, string equality is byte equality. -/
def Id3v2FrameHeader.idBytes (h : Id3v2FrameHeader) : List Nat :=
  [h.fid0, h.fid1, h.fid2, h.fid3]

/-- `Id3v2FrameHeader::into_bytes` (src/tag.rs lines 86-92). -/
def Id3v2FrameHeader.into_bytes (h : Id3v2FrameHeader) : List Nat :=
  h.idBytes ++ convert_u32_to_safesynch h.size ++ [h.fl0, h.fl1]

/-- `TextInformation` (src/tag.rs lines 107-110). -/
structure TextInformation where
  encoding : Nat
  data : List Nat
  deriving DecidableEq

/-- `TextInformation::into_bytes` (src/tag.rs lines 123-127). -/
def TextInformation.into_bytes (ti : TextInformation) : List Nat :=
  ti.encoding :: ti.data

/-- `Id3v2TextFrame` (src/tag.rs lines 95-99). -/
structure Id3v2TextFrame where
  header : Id3v2FrameHeader
  info : TextInformation
  deriving DecidableEq

/-- `Id3v2TextFrame::into_bytes` (src/tag.rs lines 101-105). -/
def Id3v2TextFrame.into_bytes (f : Id3v2TextFrame) : List Nat :=
  f.header.into_bytes ++ f.info.into_bytes

/-- `Picture` (src/tag.rs lines 144-150).  src/tag.rs declares `mime` as a
`String` while src/extract.rs constructs a `MimeType` enum value for the
same field; we model the field as the canonical MIME byte string the enum
prints to (src/main.rs lines 21-28), which is what
`self.mime.clone().into_bytes()` serializes. -/
structure Picture where
  encoding : Nat
  mime : List Nat
  picture_type : Nat
  description : List Nat
  data : List Nat
  deriving DecidableEq

/-- `Picture::into_bytes` from src/tag.rs lines 167-185.  Note: unlike the
variant in src/main.rs lines 186-200, it appends NO 0x00 terminator after
the MIME string or after the description. -/
def Picture.into_bytes (p : Picture) : List Nat :=
  [p.encoding] ++ p.mime ++ [p.picture_type] ++ p.description ++ p.data

/-- `Picture::size` (src/tag.rs lines 182-184). -/
def Picture.size (p : Picture) : Nat :=
  p.into_bytes.length

/-- `Id3v2PictureFrame` (src/tag.rs lines 129-133). -/
structure Id3v2PictureFrame where
  header : Id3v2FrameHeader
  picture : Picture
  deriving DecidableEq

/-- `Id3v2PictureFrame::into_bytes` (src/tag.rs lines 135-142). -/
def Id3v2PictureFrame.into_bytes (f : Id3v2PictureFrame) : List Nat :=
  f.header.into_bytes ++ f.picture.into_bytes

/-- `Frame` (src/tag.rs lines 6-10). -/
inductive Frame
  | text (f : Id3v2TextFrame)
  | picture (f : Id3v2PictureFrame)
  deriving DecidableEq

def Frame.into_bytes : Frame → List Nat
  | .text f => f.into_bytes
  | .picture f => f.into_bytes

/-- `Id3v2Tag` (src/tag.rs lines 187-193). -/
structure Id3v2Tag where
  header : Id3v2Header
  extended_header : Option Id3v2ExtendedHeader
  frames : List Frame
  footer : Option Id3v2Header
  deriving DecidableEq

/-- The frame bytes concatenated in list order: the `for frame in
&self.frames` loop of `Id3v2Tag::into_bytes` (src/tag.rs lines 358-366). -/
def framesBytes : List Frame → List Nat
  | [] => []
  | f :: fs => f.into_bytes ++ framesBytes fs

/-- `Id3v2Tag::into_bytes` (src/tag.rs lines 351-401): concatenate header,
extended header, frames, footer, then recompute
`total_size = result.len() - 10 - (10 if footer)` and overwrite bytes 6..10
of the result with its synchsafe encoding. -/
def Id3v2Tag.into_bytes (t : Id3v2Tag) : List Nat :=
  let header_bytes := t.header.into_bytes
  let extended_header_bytes :=
    match t.extended_header with
    | some e => e.into_bytes
    | none => []
  let frames_bytes := framesBytes t.frames
  let footer_bytes :=
    match t.footer with
    | some f => f.into_bytes
    | none => []
  let result := header_bytes ++ extended_header_bytes ++ frames_bytes ++ footer_bytes
  let total_size :=
    result.length - 10 -
      (match t.footer with
       | some _ => 10
       | none => 0)
  result.take 6 ++ convert_u32_to_safesynch total_size ++ result.drop 10

lemma convert_u32_to_safesynch_length (v : Nat) :
    (convert_u32_to_safesynch v).length = 4 := rfl

lemma Id3v2Header.into_bytes_length (h : Id3v2Header) :
    h.into_bytes.length = 10 := rfl

lemma patch_spec (r : List Nat) (v : Nat) (hr : 10 ≤ r.length) :
    (((r.take 6 ++ convert_u32_to_safesynch v ++ r.drop 10).drop 6).take 4
        = convert_u32_to_safesynch v)
      ∧ (r.take 6 ++ convert_u32_to_safesynch v ++ r.drop 10).length = r.length := by
  have ha : (r.take 6).length = 6 := by
    rw [List.length_take]
    omega
  have hdrop : (r.take 6 ++ (convert_u32_to_safesynch v ++ r.drop 10)).drop 6
      = convert_u32_to_safesynch v ++ r.drop 10 := by
    have h := List.drop_left (r.take 6) (convert_u32_to_safesynch v ++ r.drop 10)
    rwa [ha] at h
  have htake : (convert_u32_to_safesynch v ++ r.drop 10).take 4
      = convert_u32_to_safesynch v := by
    have h := List.take_left (convert_u32_to_safesynch v) (r.drop 10)
    rwa [convert_u32_to_safesynch_length] at h
  constructor
  · rw [List.append_assoc, hdrop, htake]
  · simp only [List.length_append, List.length_take, List.length_drop,
      convert_u32_to_safesynch_length]
    omega

/-! ## Claim C2 -/

/-- C2: for every Tag, bytes 6..10 of `into_bytes` are the 4-byte synchsafe
encoding of the total emitted length minus 10 (minus a further 10 when a
footer is present), independently of the stored header size field of the model
(which `into_bytes` never consults for this patch). -/
theorem into_bytes_patches_size (t : Id3v2Tag) :
    (t.into_bytes.drop 6).take 4 =
      convert_u32_to_safesynch
        (t.into_bytes.length - 10 -
          (match t.footer with
           | some _ => 10
           | none => 0)) := by
  obtain ⟨h1, h2⟩ :=
    patch_spec
      (t.header.into_bytes
        ++ (match t.extended_header with
            | some e => e.into_bytes
            | none => [])
        ++ framesBytes t.frames
        ++ (match t.footer with
            | some f => f.into_bytes
            | none => []))
      ((t.header.into_bytes
          ++ (match t.extended_header with
              | some e => e.into_bytes
              | none => [])
          ++ framesBytes t.frames
          ++ (match t.footer with
              | some f => f.into_bytes
              | none => [])).length - 10 -
        (match t.footer with
         | some _ => 10
         | none => 0))
      (by
        simp only [List.length_append, Id3v2Header.into_bytes_length]
        omega)
  simp only [Id3v2Tag.into_bytes]
  rw [h1, h2]

/-! ## Tag location and picture extraction (src/extract.rs) -/

/-- The footer-marker test of `extract_tag` (src/extract.rs lines 13-16):
Rust `&&` short-circuits, so `bytes[total+11]` and `bytes[total+12]` are
only read (and can only panic) when the preceding comparisons succeed. -/
def footerMarkerAfter (bytes : List Nat) (total : Nat) : RustM Bool :=
  match vecIdx bytes (total + 10) with
  | .error e => .error e
  | .ok f0 =>
    if f0 = 0x33 then
      match vecIdx bytes (total + 11) with
      | .error e => .error e
      | .ok f1 =>
        if f1 = 0x44 then
          match vecIdx bytes (total + 12) with
          | .error e => .error e
          | .ok f2 => .ok (f2 = 0x49)
        else .ok false
    else .ok false

/-- `extract_tag` (src/extract.rs lines 4-24): reads the synchsafe size at
bytes 6..10 and adds 10, checks the footer marker at offsets
`total_tag_size+10 .. total_tag_size+12`, then returns
`(bytes[..total_tag_size], bytes[total_tag_size+1..])`.  Both slices are
in bounds exactly when `total_tag_size + 1 ≤ bytes.length`. -/
def extract_tag (bytes : List Nat) : RustM (List Nat × List Nat) :=
  match vecIdx bytes 6, vecIdx bytes 7, vecIdx bytes 8, vecIdx bytes 9 with
  | .ok b6, .ok b7, .ok b8, .ok b9 =>
    let total := convert_safesynch_to_u32 b6 b7 b8 b9 + 10
    match footerMarkerAfter bytes total with
    | .error e => .error e
    | .ok found =>
      let total := if found then total + 10 else total
      if total + 1 ≤ bytes.length then .ok (bytes.take total, bytes.drop (total + 1))
      else .error .panic
  | _, _, _, _ => .error .panic

/-- The scanner states of `extract_picture`; the source uses the string
literals "encoding", "mime", "type", "description", "data". -/
inductive PicStage
  | encoding
  | mime
  | picType
  | description
  | picData
  deriving DecidableEq

/-- The mutable locals of `extract_picture` (src/extract.rs lines 27-33). -/
structure PicAccum where
  encoding_byte : Nat
  mime_bytes : List Nat
  picture_type_byte : Nat
  description_bytes : List Nat
  data_bytes : List Nat
  stage : PicStage
  deriving DecidableEq

/-- One iteration of the `for byte in bytes.iter()` loop of
`extract_picture` (src/extract.rs lines 35-64).  The `&_ => return Err(..)`
arm of the source is unreachable: `stage` only ever holds one of the five
literals, which the closed `PicStage` type models. -/
def pic_step (a : PicAccum) (b : Nat) : PicAccum :=
  match a.stage with
  | .encoding => { a with encoding_byte := b, stage := .mime }
  | .mime =>
    if b = 0x00 then { a with stage := .picType }
    else { a with mime_bytes := a.mime_bytes ++ [b] }
  | .picType => { a with picture_type_byte := b, stage := .description }
  | .description =>
    if b = 0x00 then { a with stage := .picData }
    else { a with description_bytes := a.description_bytes ++ [b] }
  | .picData => { a with data_bytes := a.data_bytes ++ [b] }

def picInit : PicAccum :=
  ⟨0x03, [], 0x03, [], [], .encoding⟩

/-- The `match String::from_utf8(mime_bytes).unwrap().as_str()` mapping of
`extract_picture` (src/extract.rs lines 68-72) composed with the canonical
string each `MimeType` serializes back to (src/main.rs lines 21-28). -/
def canonMime (bs : List Nat) : List Nat :=
  if bs = strImagePng then strImagePng
  else if bs = strImageJpeg then strImageJpeg
  else strImageUnknown

/-- `extract_picture` (src/extract.rs lines 26-77).  The two
`String::from_utf8(..).unwrap()` calls panic on invalid UTF-8. -/
def extract_picture (bytes : List Nat) : RustM Picture :=
  let a := bytes.foldl pic_step picInit
  if utf8Valid a.mime_bytes then
    if utf8Valid a.description_bytes then
      .ok ⟨a.encoding_byte, canonMime a.mime_bytes, a.picture_type_byte,
           a.description_bytes, a.data_bytes⟩
    else .error .panic
  else .error .panic

/-- `extract_frame` (src/extract.rs lines 79-91), rephrased on the suffix of
the buffer starting at `idx` (the source never reads below `idx`): reads the
synchsafe size at offsets 4..8, and returns the slice `[0, size+10)` of the
suffix together with the relative end offset `size+10`; the slice panics
when `size+10` exceeds the remaining length. -/
def extract_frame (bytes : List Nat) : RustM (List Nat × Nat) :=
  match vecIdx bytes 4, vecIdx bytes 5, vecIdx bytes 6, vecIdx bytes 7 with
  | .ok b4, .ok b5, .ok b6, .ok b7 =>
    let total := convert_safesynch_to_u32 b4 b5 b6 b7 + 10
    if total ≤ bytes.length then .ok (bytes.take total, total) else .error .panic
  | _, _, _, _ => .error .panic

/-! ## Decoding (src/parse.rs) -/

/-- `parse_header` (src/parse.rs lines 123-141): asserts the input has
length 10 (an assertion failure is a panic) and reads the fields. -/
def parse_header (bytes : List Nat) : RustM Id3v2Header :=
  match bytes with
  | [b0, b1, b2, b3, b4, b5, b6, b7, b8, b9] =>
    .ok ⟨b0, b1, b2, b3, b4, b5, convert_safesynch_to_u32 b6 b7 b8 b9⟩
  | _ => .error .panic

/-- `parse_extended_header` (src/parse.rs lines 68-121): reads the synchsafe
size from bytes 0..4, asserts `bytes.len() == size + 10`, then reads the
flag bytes; the CRC bytes 8..13 and the shifted positions of
`d_flag_length` and the restrictions byte depend on flag bit 0b0010000
(= 16, the same mask the source writes as 0b00010000 further down). -/
def parse_extended_header (bytes : List Nat) : RustM Id3v2ExtendedHeader :=
  match vecIdx bytes 0, vecIdx bytes 1, vecIdx bytes 2, vecIdx bytes 3 with
  | .ok b0, .ok b1, .ok b2, .ok b3 =>
    let size := convert_safesynch_to_u32 b0 b1 b2 b3
    if bytes.length = size + 10 then
      match vecIdx bytes 4, vecIdx bytes 5, vecIdx bytes 6, vecIdx bytes 7 with
      | .ok number_of_flag_bytes, .ok flags, .ok b_flag_length, .ok c_flag_length =>
        if flags &&& 0b0010000 ≠ 0 then
          match vecIdx bytes 8, vecIdx bytes 9, vecIdx bytes 10, vecIdx bytes 11,
              vecIdx bytes 12, vecIdx bytes 13, vecIdx bytes 14 with
          | .ok c0, .ok c1, .ok c2, .ok c3, .ok c4, .ok d_flag_length, .ok r =>
            .ok ⟨size, number_of_flag_bytes, flags, b_flag_length, c_flag_length,
                 some (convert_safesynch_to_u64 c0 c1 c2 c3 c4), d_flag_length, some r⟩
          | _, _, _, _, _, _, _ => .error .panic
        else
          match vecIdx bytes 8, vecIdx bytes 9 with
          | .ok d_flag_length, .ok _ =>
            .ok ⟨size, number_of_flag_bytes, flags, b_flag_length, c_flag_length,
                 none, d_flag_length, none⟩
          | _, _ => .error .panic
      | _, _, _, _ => .error .panic
    else .error .panic
  | _, _, _, _ => .error .panic

/-- `parse_frame` (src/parse.rs lines 143-182): the first ten bytes are the
frame header (out of bounds is a panic); `String::from_utf8` of the
identifier panics on invalid UTF-8; known text identifiers build a Text
frame from `data[0]` and `data[1..]`; `APIC` runs
`extract_picture(&data).unwrap()`; anything else is
`Err("Unknown frame id ..")`. -/
def parse_frame (bytes : List Nat) : RustM Frame :=
  match bytes with
  | b0 :: b1 :: b2 :: b3 :: b4 :: b5 :: b6 :: b7 :: b8 :: b9 :: data =>
    let header : Id3v2FrameHeader :=
      ⟨b0, b1, b2, b3, convert_safesynch_to_u32 b4 b5 b6 b7, b8, b9⟩
    let id := [b0, b1, b2, b3]
    if utf8Valid id then
      if id = strTIT2 ∨ id = strTALB ∨ id = strTPE1 ∨ id = strTPE2 ∨ id = strTSSE then
        match data with
        | e :: rest => .ok (.text ⟨header, ⟨e, rest⟩⟩)
        | [] => .error .panic
      else if id = strAPIC then
        match extract_picture data with
        | .ok p => .ok (.picture ⟨header, p⟩)
        | .error _ => .error .panic
      else .error (.rerr (.unknownFrame id))
    else .error .panic
  | _ => .error .panic

/-- The padding-sentinel test of `parse_frames` (src/parse.rs lines
193-197), on the suffix of the frame region starting at the scan offset:
Rust `&&` short-circuits, so `frame_bytes[idx+1..idx+3]` are only read
(and can only panic) while the previous bytes were all zero. -/
def sentinelCheck (bs : List Nat) : RustM Bool :=
  match vecIdx bs 0 with
  | .error e => .error e
  | .ok b0 =>
    if b0 ≠ 0x00 then .ok false
    else
      match vecIdx bs 1 with
      | .error e => .error e
      | .ok b1 =>
        if b1 ≠ 0x00 then .ok false
        else
          match vecIdx bs 2 with
          | .error e => .error e
          | .ok b2 =>
            if b2 ≠ 0x00 then .ok false
            else
              match vecIdx bs 3 with
              | .error e => .error e
              | .ok b3 => .ok (b3 = 0x00)

lemma extract_frame_bounds {bs : List Nat} {fb : List Nat} {endo : Nat}
    (h : extract_frame bs = .ok (fb, endo)) : 10 ≤ endo ∧ endo ≤ bs.length := by
  simp only [extract_frame] at h
  split at h
  · split at h
    · rw [Except.ok.injEq, Prod.mk.injEq] at h
      obtain ⟨h1, h2⟩ := h
      omega
    · exact absurd h (by simp)
  · exact absurd h (by simp)

/-- The `while idx < frame_bytes.len()` loop of `parse_frames`
(src/parse.rs lines 184-221), on the suffix starting at the scan offset:
break on the padding sentinel; if fewer than 11 bytes remain, print a
warning — whose `format!` argument
`String::from_utf8(frame_bytes[idx..].to_vec()).unwrap()`
(src/parse.rs lines 205-209) PANICS when the leftover bytes are not valid
UTF-8 — and otherwise return the frames collected so far (NOT an error);
else slice out one frame, `parse_frame(..).unwrap()` it (an `Err` becomes
a panic), and continue after it.

The `fuel` argument makes the recursion structural (each iteration consumes
at least 10 bytes, so `fuel = bs.length` always suffices:
`parse_frames_go_fuel` below shows the result is fuel-independent once
`bs.length ≤ fuel`; when the fuel hits 0 the buffer is already empty and
the loop would stop anyway). -/
def parse_frames_go : Nat → List Nat → RustM (List Frame)
  | 0, _ => .ok []
  | fuel + 1, bs =>
    if bs.isEmpty then .ok []
    else
      match sentinelCheck bs with
      | .error e => .error e
      | .ok true => .ok []
      | .ok false =>
        if bs.length < 11 then
          if utf8Valid bs then .ok [] else .error .panic
        else
          match extract_frame bs with
          | .error e => .error e
          | .ok (fb, endo) =>
            match unwrapR (parse_frame fb) with
            | .error e => .error e
            | .ok f =>
              match parse_frames_go fuel (bs.drop endo) with
              | .error e => .error e
              | .ok rest => .ok (f :: rest)

/-- `parse_frames` (src/parse.rs lines 184-221). -/
def parse_frames (bytes : List Nat) : RustM (List Frame) :=
  parse_frames_go bytes.length bytes

lemma parse_frames_go_fuel :
    ∀ (f1 f2 : Nat) (bs : List Nat), bs.length ≤ f1 → bs.length ≤ f2 →
      parse_frames_go f1 bs = parse_frames_go f2 bs := by
  intro f1
  induction f1 with
  | zero =>
    intro f2 bs h1 _
    have hbs : bs = [] := List.eq_nil_of_length_eq_zero (by omega)
    subst hbs
    cases f2 with
    | zero => rfl
    | succ g => simp [parse_frames_go]
  | succ f ih =>
    intro f2 bs h1 h2
    cases f2 with
    | zero =>
      have hbs : bs = [] := List.eq_nil_of_length_eq_zero (by omega)
      subst hbs
      simp [parse_frames_go]
    | succ g =>
      by_cases hbs : bs.isEmpty
      · simp [parse_frames_go, hbs]
      · simp only [parse_frames_go, hbs, if_false]
        cases hsc : sentinelCheck bs with
        | error e => rfl
        | ok b =>
          cases b with
          | true => rfl
          | false =>
            dsimp only
            by_cases hlen : bs.length < 11
            · simp [hlen]
            · simp only [hlen, if_false]
              cases hex : extract_frame bs with
              | error e => rfl
              | ok p =>
                obtain ⟨fb, endo⟩ := p
                have hb := extract_frame_bounds hex
                dsimp only
                cases hpf : unwrapR (parse_frame fb) with
                | error e => rfl
                | ok fr =>
                  dsimp only
                  have hrec : parse_frames_go f (bs.drop endo)
                      = parse_frames_go g (bs.drop endo) := by
                    apply ih
                    · simp only [List.length_drop]; omega
                    · simp only [List.length_drop]; omega
                  rw [hrec]

/-- One-step unfolding of `parse_frames` on a non-empty buffer, with the
recursive occurrence again phrased via `parse_frames`. -/
lemma parse_frames_unfold (bs : List Nat) :
    parse_frames bs =
      (if bs.isEmpty then .ok []
       else
        match sentinelCheck bs with
        | .error e => .error e
        | .ok true => .ok []
        | .ok false =>
          if bs.length < 11 then
            if utf8Valid bs then .ok [] else .error .panic
          else
            match extract_frame bs with
            | .error e => .error e
            | .ok (fb, endo) =>
              match unwrapR (parse_frame fb) with
              | .error e => .error e
              | .ok f =>
                match parse_frames (bs.drop endo) with
                | .error e => .error e
                | .ok rest => .ok (f :: rest)) := by
  by_cases hbs : bs.isEmpty
  · have hnil : bs = [] := by
      cases bs
      · rfl
      · simp [List.isEmpty] at hbs
    subst hnil
    simp [parse_frames, parse_frames_go]
  · have hpos : 1 ≤ bs.length := by
      cases bs
      · simp [List.isEmpty] at hbs
      · simp
    obtain ⟨f, hf⟩ : ∃ f, bs.length = f + 1 := ⟨bs.length - 1, by omega⟩
    conv_lhs => rw [parse_frames, hf, parse_frames_go]
    simp only [hbs, if_false]
    cases hsc : sentinelCheck bs with
    | error e => rfl
    | ok b =>
      cases b with
      | true => rfl
      | false =>
        dsimp only
        by_cases hlen : bs.length < 11
        · simp [hlen]
        · simp only [hlen, if_false]
          cases hex : extract_frame bs with
          | error e => rfl
          | ok p =>
            obtain ⟨fb, endo⟩ := p
            have hb := extract_frame_bounds hex
            dsimp only
            cases hpf : unwrapR (parse_frame fb) with
            | error e => rfl
            | ok fr =>
              dsimp only
              have hrec : parse_frames_go f (bs.drop endo)
                  = parse_frames (bs.drop endo) := by
                rw [parse_frames]
                apply parse_frames_go_fuel
                · simp only [List.length_drop]; omega
                · simp only [List.length_drop]; omega
              rw [hrec]

/-- The identifier check opening `parse_tag` (src/parse.rs lines 6-12):
the `||` chain short-circuits, and the `format!` of the error message
itself indexes `bytes[0]`, `bytes[1]`, `bytes[2]` (so a buffer shorter
than 3 bytes panics even on the error path). -/
def id3Check (bytes : List Nat) : RustM (Option TagError) :=
  match vecIdx bytes 0 with
  | .error e => .error e
  | .ok b0 =>
    if b0 ≠ 0x49 then
      match vecIdx bytes 1, vecIdx bytes 2 with
      | .ok b1, .ok b2 => .ok (some (.notAnId3Tag b0 b1 b2))
      | _, _ => .error .panic
    else
      match vecIdx bytes 1 with
      | .error e => .error e
      | .ok b1 =>
        if b1 ≠ 0x44 then
          match vecIdx bytes 2 with
          | .ok b2 => .ok (some (.notAnId3Tag b0 b1 b2))
          | .error e => .error e
        else
          match vecIdx bytes 2 with
          | .error e => .error e
          | .ok b2 =>
            if b2 ≠ 0x33 then .ok (some (.notAnId3Tag b0 b1 b2))
            else .ok none

/-- `parse_tag` (src/parse.rs lines 5-66). The footer test reads
`bytes[len-10..len-8]`; these are in bounds because the header slice
already required `len ≥ 10`, so `getD` never falls back to its default. -/
def parse_tag (bytes : List Nat) : RustM Id3v2Tag :=
  match id3Check bytes with
  | .error e => .error e
  | .ok (some e) => .error (.rerr e)
  | .ok none =>
    if bytes.length < 10 then .error .panic
    else
      match parse_header (bytes.take 10) with
      | .error e => .error e
      | .ok header =>
        match (if header.flags &&& 0b01000000 ≠ 0 then
                 match vecIdx bytes 10, vecIdx bytes 11, vecIdx bytes 12, vecIdx bytes 13 with
                 | .ok c0, .ok c1, .ok c2, .ok c3 =>
                   let tehs := convert_safesynch_to_u32 c0 c1 c2 c3
                   if tehs + 10 ≤ bytes.length then
                     match parse_extended_header ((bytes.take (tehs + 10)).drop 10) with
                     | .error e => .error e
                     | .ok eh => .ok (some eh)
                   else .error .panic
                 | _, _, _, _ => .error .panic
               else .ok none : RustM (Option Id3v2ExtendedHeader)) with
        | .error e => .error e
        | .ok extended_header =>
          let footer_present : Bool :=
            (bytes.getD (bytes.length - 10) 0 == 0x33)
              && (bytes.getD (bytes.length - 9) 0 == 0x44)
              && (bytes.getD (bytes.length - 8) 0 == 0x49)
          let frames_start :=
            match extended_header with
            | some eh => eh.size + 10
            | none => 10
          let frames_end := if footer_present then bytes.length - 10 else bytes.length
          if frames_end < frames_start then .error .panic
          else
            match parse_frames ((bytes.take frames_end).drop frames_start) with
            | .error e => .error e
            | .ok frames =>
              match (if footer_present then
                       match parse_header (bytes.drop (bytes.length - 10)) with
                       | .error e => .error e
                       | .ok f => .ok (some f)
                     else .ok none : RustM (Option Id3v2Header)) with
              | .error e => .error e
              | .ok footer => .ok ⟨header, extended_header, frames, footer⟩

/-! ## Mutators (src/tag.rs) -/

/-- Wrapping `u32` addition: the release-build semantics of `+=` on
`self.header.size` (a debug build would panic on overflow instead; either
way requires byte vectors of length near `2^32`). -/
def addWrapU32 (a b : Nat) : Nat := (a + b) % 2 ^ 32

/-- Wrapping `u32` subtraction, release-build semantics of `-=`. -/
def subWrapU32 (a b : Nat) : Nat := (a + 2 ^ 32 - b % 2 ^ 32) % 2 ^ 32

/-- `Id3v2Tag::new_text_frame` (src/tag.rs lines 196-209): frame header
size is `data.len() + 1` (for the encoding byte); panics when `frame_id`
has fewer than 4 bytes. -/
def Id3v2Tag.new_text_frame (frame_id : List Nat) (encoding : Nat) (data : List Nat) :
    RustM Id3v2TextFrame :=
  match frame_id with
  | i0 :: i1 :: i2 :: i3 :: _ =>
    .ok ⟨⟨i0, i1, i2, i3, data.length + 1, 0x00, 0x00⟩, ⟨encoding, data⟩⟩
  | _ => .error .panic

/-- `Id3v2Tag::new_attached_picture_frame` (src/tag.rs lines 211-228):
header size is `picture.size()`; the stored picture copies every field but
forces `picture_type` to 0x03. -/
def Id3v2Tag.new_attached_picture_frame (picture : Picture) : Id3v2PictureFrame :=
  ⟨⟨0x41, 0x50, 0x49, 0x43, picture.size, 0x00, 0x00⟩,
   ⟨picture.encoding, picture.mime, 0x03, picture.description, picture.data⟩⟩

/-- The `self.frames.iter().position(..)` search used by both setters
(src/tag.rs lines 232-235 and 261-264): the closure matches ONLY
`Frame::Text` frames against the target identifier (`_ => false` for
Picture frames), and calls `id_str()`, which panics on an invalid UTF-8
identifier. -/
def findTextIdx (frame_id : List Nat) : List Frame → Nat → RustM (Option Nat)
  | [], _ => .ok none
  | .text tf :: rest, i =>
    if utf8Valid tf.header.idBytes then
      if tf.header.idBytes = frame_id then .ok (some i)
      else findTextIdx frame_id rest (i + 1)
    else .error .panic
  | .picture _ :: rest, i => findTextIdx frame_id rest (i + 1)

/-- `Id3v2Tag::set_text_frame` (src/tag.rs lines 230-258).  The result pairs
the Rust `Result<(), String>` return value with the post-state of the tag.
When the found index does not hold a Text frame the inner `if let` simply
falls through (no else): the call is a no-op returning `Ok(())` — this is
unreachable because the search only returns indices of Text frames. -/
def Id3v2Tag.set_text_frame (t : Id3v2Tag) (frame_id : List Nat) (data : List Nat) :
    RustM (Except TagError Unit × Id3v2Tag) :=
  match findTextIdx frame_id t.frames 0 with
  | .error e => .error e
  | .ok (some i) =>
    match t.frames.get? i with
    | some (.text prev_frame) =>
      let sz1 := subWrapU32 t.header.size prev_frame.into_bytes.length
      match Id3v2Tag.new_text_frame frame_id 0x03 data with
      | .error e => .error e
      | .ok new_frame =>
        let sz2 := addWrapU32 sz1 new_frame.into_bytes.length
        .ok (.ok (),
          { t with
            header := { t.header with size := sz2 },
            frames := t.frames.set i (.text new_frame) })
    | _ => .ok (.ok (), t)
  | .ok none =>
    match Id3v2Tag.new_text_frame frame_id 0x03 data with
    | .error e => .error e
    | .ok new_frame =>
      .ok (.ok (),
        { t with
          header :=
            { t.header with size := addWrapU32 t.header.size new_frame.into_bytes.length },
          frames := t.frames ++ [.text new_frame] })

/-- `Id3v2Tag::set_attached_picture_frame` (src/tag.rs lines 260-289).
The search (`findTextIdx`) only matches Text frames carrying identifier
"APIC"; if one is found, the `if let Frame::Picture` test necessarily
fails and the call returns
`Err("attempting to set a non-text frame as a picture frame")` without
mutating the tag; otherwise a new APIC frame is appended. -/
def Id3v2Tag.set_attached_picture_frame (t : Id3v2Tag) (picture : Picture) :
    RustM (Except TagError Unit × Id3v2Tag) :=
  match findTextIdx strAPIC t.frames 0 with
  | .error e => .error e
  | .ok (some i) =>
    match t.frames.get? i with
    | some (.picture prev_frame) =>
      let sz := addWrapU32 (subWrapU32 t.header.size prev_frame.picture.size) picture.size
      let new_frame := Id3v2Tag.new_attached_picture_frame picture
      .ok (.ok (),
        { t with
          header := { t.header with size := sz },
          frames := t.frames.set i (.picture new_frame) })
    | _ => .ok (.error .nonTextAsPicture, t)
  | .ok none =>
    let new_frame := Id3v2Tag.new_attached_picture_frame picture
    .ok (.ok (),
      { t with
        header :=
          { t.header with
            size := addWrapU32 t.header.size new_frame.into_bytes.length },
        frames := t.frames ++ [.picture new_frame] })

/-- `Id3v2Tag::set_song_title` (src/tag.rs lines 291-297). -/
def Id3v2Tag.set_song_title (t : Id3v2Tag) (song_title : List Nat) :
    RustM (Except TagError Unit × Id3v2Tag) :=
  t.set_text_frame strTIT2 song_title

/-- `Id3v2Tag::set_song_artist_name` (src/tag.rs lines 299-304). -/
def Id3v2Tag.set_song_artist_name (t : Id3v2Tag) (name : List Nat) :
    RustM (Except TagError Unit × Id3v2Tag) :=
  t.set_text_frame strTPE1 name

/-- `Id3v2Tag::set_album_title` (src/tag.rs lines 306-311). -/
def Id3v2Tag.set_album_title (t : Id3v2Tag) (album_title : List Nat) :
    RustM (Except TagError Unit × Id3v2Tag) :=
  t.set_text_frame strTALB album_title

/-- `Id3v2Tag::set_album_artist_name` (src/tag.rs lines 313-318). -/
def Id3v2Tag.set_album_artist_name (t : Id3v2Tag) (name : List Nat) :
    RustM (Except TagError Unit × Id3v2Tag) :=
  t.set_text_frame strTPE2 name

/-- `Id3v2Tag::set_cover_art` (src/tag.rs lines 320-325). -/
def Id3v2Tag.set_cover_art (t : Id3v2Tag) (picture : Picture) :
    RustM (Except TagError Unit × Id3v2Tag) :=
  t.set_attached_picture_frame picture

/-! ## Helper lemmas about the scanners -/

lemma exists_heads4 {l : List Nat} (h : 4 ≤ l.length) :
    ∃ a b c d t, l = a :: b :: c :: d :: t := by
  rcases l with _ | ⟨a, _ | ⟨b, _ | ⟨c, _ | ⟨d, t⟩⟩⟩⟩
  · simp at h
  · simp at h
  · simp at h
  · simp at h
  · exact ⟨a, b, c, d, t, rfl⟩

lemma sentinelCheck_cons4 (a b c d : Nat) (t : List Nat) :
    sentinelCheck (a :: b :: c :: d :: t)
      = .ok (decide (a = 0) && decide (b = 0) && decide (c = 0) && decide (d = 0)) := by
  by_cases ha : a = 0 <;> by_cases hb : b = 0 <;> by_cases hc : c = 0 <;>
    by_cases hd : d = 0 <;> simp [sentinelCheck, vecIdx, ha, hb, hc, hd]

lemma sentinelCheck_ne_error (bs : List Nat)
    (h : ¬ (bs.length < 4 ∧ ∀ b ∈ bs, b = 0)) (hne : 1 ≤ bs.length) :
    ∀ e, sentinelCheck bs ≠ .error e := by
  intro e
  rcases bs with _ | ⟨a, _ | ⟨b, _ | ⟨c, _ | ⟨d, t⟩⟩⟩⟩
  · simp at hne
  · have ha : ¬ a = 0 := fun hz => h ⟨by simp, by simp [hz]⟩
    simp [sentinelCheck, vecIdx, ha]
  · by_cases ha : a = 0
    · have hb : ¬ b = 0 := fun hz => h ⟨by simp, by
        intro x hx
        rcases List.mem_cons.mp hx with rfl | hx2
        · exact ha
        · rcases List.mem_cons.mp hx2 with rfl | hx3
          · exact hz
          · simp at hx3⟩
      simp [sentinelCheck, vecIdx, ha, hb]
    · simp [sentinelCheck, vecIdx, ha]
  · by_cases ha : a = 0
    · by_cases hb : b = 0
      · have hc : ¬ c = 0 := fun hz => h ⟨by simp, by
          intro x hx
          rcases List.mem_cons.mp hx with rfl | hx2
          · exact ha
          · rcases List.mem_cons.mp hx2 with rfl | hx3
            · exact hb
            · rcases List.mem_cons.mp hx3 with rfl | hx4
              · exact hz
              · simp at hx4⟩
        simp [sentinelCheck, vecIdx, ha, hb, hc]
      · simp [sentinelCheck, vecIdx, ha, hb]
    · simp [sentinelCheck, vecIdx, ha]
  · rw [sentinelCheck_cons4]
    simp

/-! ## Concrete inputs used by the refutations -/

/-- A 35-byte tag: header (declared size 25, which matches the emitted
length) and one APIC frame of body size 15 whose payload is
encoding 3, "image/jpeg" NUL, picture type 3, empty description NUL,
one data byte 0xAA. -/
def cexPicRoundtripInput : List Nat :=
  [0x49, 0x44, 0x33, 4, 0, 0, 0, 0, 0, 25]
    ++ [0x41, 0x50, 0x49, 0x43, 0, 0, 0, 15, 0, 0]
    ++ [3] ++ strImageJpeg ++ [0] ++ [3] ++ [0] ++ [0xAA]

/-- The tag `parse_tag` decodes `cexPicRoundtripInput` to. -/
def cexPicRoundtripTag : Id3v2Tag :=
  ⟨⟨0x49, 0x44, 0x33, 4, 0, 0, 25⟩, none,
   [.picture ⟨⟨0x41, 0x50, 0x49, 0x43, 15, 0, 0⟩, ⟨3, strImageJpeg, 3, [], [0xAA]⟩⟩],
   none⟩

/-- A 10-byte frameless tag whose declared size field (5) does not match
its actual body length (0). -/
def cexStaleSizeInput : List Nat :=
  [0x49, 0x44, 0x33, 4, 0, 0, 0, 0, 0, 5]

/-- Header ++ one extra byte: a frame region of 1 byte. -/
def cexTruncatedInput : List Nat :=
  [0x49, 0x44, 0x33, 4, 0, 0, 0, 0, 0, 1] ++ [5]

/-- Header ++ one 11-byte frame with the unknown identifier "TXXX". -/
def cexUnknownFrameInput : List Nat :=
  [0x49, 0x44, 0x33, 4, 0, 0, 0, 0, 0, 1]
    ++ [0x54, 0x58, 0x58, 0x58, 0, 0, 0, 1, 0, 0, 7]

/-- A whole file: frameless tag (size field 0, so `total_tag_size` = 10)
followed by 13 audio bytes; bytes 20..22 are not the footer marker. -/
def cexFileInput : List Nat :=
  [0x49, 0x44, 0x33, 4, 0, 0, 0, 0, 0, 0]
    ++ [1, 2, 3, 4, 5, 6, 7, 8, 9, 10, 11, 12, 13]

def cexEmptyTag : Id3v2Tag :=
  ⟨⟨0x49, 0x44, 0x33, 4, 0, 0, 0⟩, none, [], none⟩

def cexPicA : Picture := ⟨3, strImageJpeg, 3, [], [1]⟩

def cexPicB : Picture := ⟨3, strImageJpeg, 3, [], [2, 2]⟩

/-- The state after `set_cover_art(cexPicA)` on `cexEmptyTag`: one APIC
frame appended (serialized length 10 + 13), size field 23. -/
def cexTagAfterA : Id3v2Tag :=
  ⟨⟨0x49, 0x44, 0x33, 4, 0, 0, 23⟩, none,
   [.picture ⟨⟨0x41, 0x50, 0x49, 0x43, 13, 0, 0⟩, ⟨3, strImageJpeg, 3, [], [1]⟩⟩],
   none⟩

/-- The state after a second `set_cover_art(cexPicB)`: a SECOND APIC frame
appended (serialized length 10 + 14), size field 47. -/
def cexTagAfterAB : Id3v2Tag :=
  ⟨⟨0x49, 0x44, 0x33, 4, 0, 0, 47⟩, none,
   [.picture ⟨⟨0x41, 0x50, 0x49, 0x43, 13, 0, 0⟩, ⟨3, strImageJpeg, 3, [], [1]⟩⟩,
    .picture ⟨⟨0x41, 0x50, 0x49, 0x43, 14, 0, 0⟩, ⟨3, strImageJpeg, 3, [], [2, 2]⟩⟩],
   none⟩

/-- A tag whose only frame is a PICTURE frame carrying the text identifier
"TIT2" (an identifier collision across kinds). -/
def cexKindClashTag : Id3v2Tag :=
  ⟨⟨0x49, 0x44, 0x33, 4, 0, 0, 20⟩, none,
   [.picture ⟨⟨0x54, 0x49, 0x54, 0x32, 13, 0, 0⟩, ⟨3, strImageJpeg, 3, [], [9]⟩⟩],
   none⟩

/-- What `set_song_title("X")` actually does to `cexKindClashTag`: it
appends a fresh TIT2 Text frame (the Picture frame is invisible to the
search) and returns `Ok(())`. -/
def cexKindClashTagAfter : Id3v2Tag :=
  ⟨⟨0x49, 0x44, 0x33, 4, 0, 0, 32⟩, none,
   [.picture ⟨⟨0x54, 0x49, 0x54, 0x32, 13, 0, 0⟩, ⟨3, strImageJpeg, 3, [], [9]⟩⟩,
    .text ⟨⟨0x54, 0x49, 0x54, 0x32, 2, 0, 0⟩, ⟨3, [0x58]⟩⟩],
   none⟩

/-! ## Claim C1: counterexample -/

/-- C1 is false: (a) a successfully decoded, fully size-consistent Tag with
one Picture frame does NOT round-trip — `Picture::into_bytes` omits the
MIME and description NUL terminators, so the re-emitted frame is 2 bytes
shorter than its header claims and re-parsing panics slicing the frame;
(b) a successfully decoded frameless Tag whose stored header size field (5)
differs from its actual body length (0) re-parses with header size 0, since
`into_bytes` overwrites bytes 6..10 with the recomputed actual size. -/
theorem parse_roundtrip_cex :
    parse_tag cexPicRoundtripInput = .ok cexPicRoundtripTag
      ∧ parse_tag cexPicRoundtripTag.into_bytes = .error .panic
      ∧ parse_tag cexStaleSizeInput = .ok ⟨⟨0x49, 0x44, 0x33, 4, 0, 0, 5⟩, none, [], none⟩
      ∧ parse_tag ((⟨⟨0x49, 0x44, 0x33, 4, 0, 0, 5⟩, none, [], none⟩ : Id3v2Tag).into_bytes)
          = .ok ⟨⟨0x49, 0x44, 0x33, 4, 0, 0, 0⟩, none, [], none⟩ := by
  decide

/-! ## Claim C1: the amended round-trip -/

/-- A Text frame as `parse_tag` itself produces them: a recognized
identifier, and a header size field equal to the payload length
(1 encoding byte + text bytes), small enough for the 28-bit synchsafe
size encoding. -/
def TextFrameWf (tf : Id3v2TextFrame) : Prop :=
  tf.header.idBytes ∈ [strTIT2, strTALB, strTPE1, strTPE2, strTSSE]
    ∧ tf.header.size = tf.info.data.length + 1
    ∧ tf.info.data.length + 1 < 2 ^ 28

/-- The tags for which the round-trip can hold: "ID3" identifier, extended
header flag clear (a set flag never survives `parse_tag`: the extended
header length assertion always fails) and no extended header, no footer,
only well-formed Text frames, a stored header size field that already
equals the recomputed body length (`into_bytes` overwrites the size field
with exactly that value), a body below the 28-bit size limit, and no
accidental footer marker in the last 10 emitted bytes. -/
def TextTagWf (t : Id3v2Tag) : Prop :=
  t.header.id0 = 0x49 ∧ t.header.id1 = 0x44 ∧ t.header.id2 = 0x33
    ∧ t.header.flags &&& 64 = 0
    ∧ t.extended_header = none
    ∧ t.footer = none
    ∧ (∀ f ∈ t.frames, ∃ tf, f = .text tf ∧ TextFrameWf tf)
    ∧ t.header.size = t.into_bytes.length - 10
    ∧ t.into_bytes.length - 10 < 2 ^ 28
    ∧ ((t.into_bytes.getD (t.into_bytes.length - 10) 0 == 0x33)
        && (t.into_bytes.getD (t.into_bytes.length - 9) 0 == 0x44)
        && (t.into_bytes.getD (t.into_bytes.length - 8) 0 == 0x49)) = false

lemma parse_frames_cons_text (f0 f1 f2 f3 fl0 fl1 enc : Nat) (data : List Nat)
    (rest : List Frame)
    (hidv : utf8Valid [f0, f1, f2, f3] = true)
    (hids : [f0, f1, f2, f3] = strTIT2 ∨ [f0, f1, f2, f3] = strTALB
        ∨ [f0, f1, f2, f3] = strTPE1 ∨ [f0, f1, f2, f3] = strTPE2
        ∨ [f0, f1, f2, f3] = strTSSE)
    (hf0 : f0 ≠ 0)
    (hbound : data.length + 1 < 2 ^ 28)
    (hrest : parse_frames (framesBytes rest) = .ok rest) :
    parse_frames
        (framesBytes (.text ⟨⟨f0, f1, f2, f3, data.length + 1, fl0, fl1⟩, ⟨enc, data⟩⟩ :: rest))
      = .ok (.text ⟨⟨f0, f1, f2, f3, data.length + 1, fl0, fl1⟩, ⟨enc, data⟩⟩ :: rest) := by
  obtain ⟨e0, e1, e2, e3, henc⟩ : ∃ e0 e1 e2 e3,
      convert_u32_to_safesynch (data.length + 1) = [e0, e1, e2, e3] := ⟨_, _, _, _, rfl⟩
  have hdec : convert_safesynch_to_u32 e0 e1 e2 e3 = data.length + 1 := by
    have h := decode_encode32 (data.length + 1)
    rw [henc] at h
    simp only [List.getD_cons_zero, List.getD_cons_succ] at h
    rwa [Nat.mod_eq_of_lt hbound] at h
  have hfbytes :
      framesBytes (.text ⟨⟨f0, f1, f2, f3, data.length + 1, fl0, fl1⟩, ⟨enc, data⟩⟩ :: rest)
        = f0 :: f1 :: f2 :: f3 :: e0 :: e1 :: e2 :: e3 :: fl0 :: fl1 :: enc
            :: (data ++ framesBytes rest) := by
    simp [framesBytes, Frame.into_bytes, Id3v2TextFrame.into_bytes,
      Id3v2FrameHeader.into_bytes, Id3v2FrameHeader.idBytes, TextInformation.into_bytes, henc]
  rw [hfbytes, parse_frames_unfold]
  simp only [List.isEmpty_cons, Bool.false_eq_true, if_false]
  have hsc : sentinelCheck (f0 :: f1 :: f2 :: f3 :: e0 :: e1 :: e2 :: e3 :: fl0 :: fl1 :: enc
      :: (data ++ framesBytes rest)) = .ok false := by
    simp [sentinelCheck, vecIdx, hf0]
  rw [hsc]
  dsimp only
  rw [if_neg (by simp only [List.length_cons, List.length_append]; omega)]
  have hef : extract_frame (f0 :: f1 :: f2 :: f3 :: e0 :: e1 :: e2 :: e3 :: fl0 :: fl1 :: enc
      :: (data ++ framesBytes rest))
      = .ok ((f0 :: f1 :: f2 :: f3 :: e0 :: e1 :: e2 :: e3 :: fl0 :: fl1 :: enc
          :: (data ++ framesBytes rest)).take (data.length + 1 + 10), data.length + 1 + 10) := by
    simp only [extract_frame]
    rw [show vecIdx (f0 :: f1 :: f2 :: f3 :: e0 :: e1 :: e2 :: e3 :: fl0 :: fl1 :: enc
        :: (data ++ framesBytes rest)) 4 = .ok e0 from rfl]
    rw [show vecIdx (f0 :: f1 :: f2 :: f3 :: e0 :: e1 :: e2 :: e3 :: fl0 :: fl1 :: enc
        :: (data ++ framesBytes rest)) 5 = .ok e1 from rfl]
    rw [show vecIdx (f0 :: f1 :: f2 :: f3 :: e0 :: e1 :: e2 :: e3 :: fl0 :: fl1 :: enc
        :: (data ++ framesBytes rest)) 6 = .ok e2 from rfl]
    rw [show vecIdx (f0 :: f1 :: f2 :: f3 :: e0 :: e1 :: e2 :: e3 :: fl0 :: fl1 :: enc
        :: (data ++ framesBytes rest)) 7 = .ok e3 from rfl]
    dsimp only
    rw [hdec]
    rw [if_pos (by simp only [List.length_cons, List.length_append]; omega)]
  rw [hef]
  dsimp only
  rw [show (f0 :: f1 :: f2 :: f3 :: e0 :: e1 :: e2 :: e3 :: fl0 :: fl1 :: enc
        :: (data ++ framesBytes rest)).take (data.length + 1 + 10)
      = f0 :: f1 :: f2 :: f3 :: e0 :: e1 :: e2 :: e3 :: fl0 :: fl1 :: enc
        :: ((data ++ framesBytes rest).take data.length) from rfl]
  rw [List.take_left]
  rw [show (f0 :: f1 :: f2 :: f3 :: e0 :: e1 :: e2 :: e3 :: fl0 :: fl1 :: enc
        :: (data ++ framesBytes rest)).drop (data.length + 1 + 10)
      = (data ++ framesBytes rest).drop data.length from rfl]
  rw [List.drop_left]
  have hpf : parse_frame (f0 :: f1 :: f2 :: f3 :: e0 :: e1 :: e2 :: e3 :: fl0 :: fl1 :: enc :: data)
      = .ok (.text ⟨⟨f0, f1, f2, f3, data.length + 1, fl0, fl1⟩, ⟨enc, data⟩⟩) := by
    simp only [parse_frame]
    rw [if_pos hidv, if_pos hids]
    rw [hdec]
  rw [hpf]
  dsimp only [unwrapR]
  rw [hrest]

lemma parse_frames_framesBytes :
    ∀ fs : List Frame, (∀ f ∈ fs, ∃ tf, f = .text tf ∧ TextFrameWf tf) →
      parse_frames (framesBytes fs) = .ok fs := by
  intro fs
  induction fs with
  | nil => intro _; rfl
  | cons f rest ih =>
    intro hf
    obtain ⟨tf, hfe, hwf⟩ := hf f (List.mem_cons_self f rest)
    subst hfe
    obtain ⟨⟨f0, f1, f2, f3, fsz, fl0, fl1⟩, enc, data⟩ := tf
    obtain ⟨hid, hsz, hbound⟩ := hwf
    have hid2 : [f0, f1, f2, f3] ∈ [strTIT2, strTALB, strTPE1, strTPE2, strTSSE] := hid
    have hsz2 : fsz = data.length + 1 := hsz
    have hbound2 : data.length + 1 < 2 ^ 28 := hbound
    subst hsz2
    have hrest := ih fun x hx => hf x (List.mem_cons_of_mem _ hx)
    simp only [List.mem_cons, List.not_mem_nil, or_false] at hid2
    have hids : [f0, f1, f2, f3] = strTIT2 ∨ [f0, f1, f2, f3] = strTALB
        ∨ [f0, f1, f2, f3] = strTPE1 ∨ [f0, f1, f2, f3] = strTPE2
        ∨ [f0, f1, f2, f3] = strTSSE := hid2
    have hf0 : f0 ≠ 0 := by
      rcases hid2 with h | h | h | h | h <;>
        · simp only [strTIT2, strTALB, strTPE1, strTPE2, strTSSE, List.cons.injEq,
            and_true] at h
          omega
    have hidv : utf8Valid [f0, f1, f2, f3] = true := by
      rcases hid2 with h | h | h | h | h <;> (rw [h]; decide)
    exact parse_frames_cons_text f0 f1 f2 f3 fl0 fl1 enc data rest hidv hids hf0 hbound2 hrest

/-- Skeleton evaluation of `parse_tag` on a 10-byte header (good "ID3"
identifier, extended-header flag clear) followed by an arbitrary frame
region, when the trailing 10 bytes do not show the footer marker. -/
lemma parse_tag_no_ext (v1 v2 fl s0 s1 s2 s3 : Nat) (region : List Nat)
    (hfl : fl &&& 64 = 0)
    (hfp : ((([0x49, 0x44, 0x33, v1, v2, fl, s0, s1, s2, s3] ++ region).getD
          (([0x49, 0x44, 0x33, v1, v2, fl, s0, s1, s2, s3] ++ region).length - 10) 0 == 0x33)
        && (([0x49, 0x44, 0x33, v1, v2, fl, s0, s1, s2, s3] ++ region).getD
          (([0x49, 0x44, 0x33, v1, v2, fl, s0, s1, s2, s3] ++ region).length - 9) 0 == 0x44)
        && (([0x49, 0x44, 0x33, v1, v2, fl, s0, s1, s2, s3] ++ region).getD
          (([0x49, 0x44, 0x33, v1, v2, fl, s0, s1, s2, s3] ++ region).length - 8) 0 == 0x49))
        = false) :
    parse_tag ([0x49, 0x44, 0x33, v1, v2, fl, s0, s1, s2, s3] ++ region)
      = match parse_frames region with
        | .error e => .error e
        | .ok frames =>
          .ok ⟨⟨0x49, 0x44, 0x33, v1, v2, fl, convert_safesynch_to_u32 s0 s1 s2 s3⟩,
               none, frames, none⟩ := by
  have hL : ([0x49, 0x44, 0x33, v1, v2, fl, s0, s1, s2, s3] ++ region).length
      = region.length + 10 := by
    simp only [List.length_append, List.length_cons, List.length_nil]
    omega
  have hic : id3Check ([0x49, 0x44, 0x33, v1, v2, fl, s0, s1, s2, s3] ++ region)
      = .ok none := by
    simp [id3Check, vecIdx]
  unfold parse_tag
  rw [hic]
  dsimp only
  rw [if_neg (by rw [hL]; omega)]
  rw [show ([0x49, 0x44, 0x33, v1, v2, fl, s0, s1, s2, s3] ++ region).take 10
      = [0x49, 0x44, 0x33, v1, v2, fl, s0, s1, s2, s3] from rfl]
  rw [show parse_header [0x49, 0x44, 0x33, v1, v2, fl, s0, s1, s2, s3]
      = .ok ⟨0x49, 0x44, 0x33, v1, v2, fl, convert_safesynch_to_u32 s0 s1 s2 s3⟩ from rfl]
  dsimp only
  rw [if_neg (fun hx => hx hfl)]
  dsimp only
  rw [hfp]
  simp only [Bool.false_eq_true, if_false]
  rw [if_neg (by rw [hL]; omega)]
  rw [show (([0x49, 0x44, 0x33, v1, v2, fl, s0, s1, s2, s3] ++ region).take
        ([0x49, 0x44, 0x33, v1, v2, fl, s0, s1, s2, s3] ++ region).length).drop 10
      = region from by rw [List.take_length]; rfl]

/-- C1 amended: the round-trip does hold for re-serialization-consistent
text-only tags.  For every Tag satisfying `TextTagWf` — "ID3" identifier,
extended-header flag clear, no extended header or footer, only well-formed
Text frames, a stored size field equal to the recomputed body length, body
under 2^28 bytes, and no accidental footer marker at the end of the
serialization — `parse_tag (into_bytes t)` succeeds and returns `t`
itself (equal header, frame count, and frame contents).  Tags with a
stale size field re-parse with the recomputed size instead, and tags with
Picture frames fail re-parsing altogether (see the counterexample). -/
theorem parse_roundtrip_text_only (t : Id3v2Tag) (hwf : TextTagWf t) :
    parse_tag t.into_bytes = .ok t := by
  obtain ⟨⟨i0, i1, i2, ver0, ver1, fl, sz⟩, eh, fs, ft⟩ := t
  obtain ⟨h0, h1, h2, hflags, hext, hfoot, hframes, hsize, hlt, hmark⟩ := hwf
  have hi0 : i0 = 0x49 := h0
  have hi1 : i1 = 0x44 := h1
  have hi2 : i2 = 0x33 := h2
  have heh : eh = none := hext
  have hft : ft = none := hfoot
  subst hi0 hi1 hi2 heh hft
  have hflags2 : fl &&& 64 = 0 := hflags
  have hfs : ∀ f ∈ fs, ∃ tf, f = .text tf ∧ TextFrameWf tf := hframes
  obtain ⟨e0, e1, e2, e3, henc⟩ : ∃ e0 e1 e2 e3,
      convert_u32_to_safesynch ((framesBytes fs).length) = [e0, e1, e2, e3] := ⟨_, _, _, _, rfl⟩
  have hib : (⟨⟨0x49, 0x44, 0x33, ver0, ver1, fl, sz⟩, none, fs, none⟩ : Id3v2Tag).into_bytes
      = [0x49, 0x44, 0x33, ver0, ver1, fl, e0, e1, e2, e3] ++ framesBytes fs := by
    simp only [Id3v2Tag.into_bytes, Id3v2Header.into_bytes]
    simp only [List.append_nil, List.cons_append, List.nil_append]
    rw [show (0x49 :: 0x44 :: 0x33 :: ver0 :: ver1 :: fl ::
          (convert_u32_to_safesynch sz ++ framesBytes fs)).take 6
        = [0x49, 0x44, 0x33, ver0, ver1, fl] from rfl]
    rw [show (0x49 :: 0x44 :: 0x33 :: ver0 :: ver1 :: fl ::
          (convert_u32_to_safesynch sz ++ framesBytes fs)).drop 10
        = framesBytes fs from rfl]
    rw [show (0x49 :: 0x44 :: 0x33 :: ver0 :: ver1 :: fl ::
          (convert_u32_to_safesynch sz ++ framesBytes fs)).length - 10 - 0
        = (framesBytes fs).length from by
      simp only [List.length_cons, List.length_append, convert_u32_to_safesynch_length]
      omega]
    rw [henc]
    simp [List.cons_append, List.append_assoc]
  rw [hib] at hmark hsize hlt ⊢
  have hFBlt : (framesBytes fs).length < 2 ^ 28 := by
    simp only [List.length_append, List.length_cons, List.length_nil] at hlt
    omega
  have hsz3 : sz = (framesBytes fs).length := by
    simp only [List.length_append, List.length_cons, List.length_nil] at hsize
    omega
  rw [parse_tag_no_ext ver0 ver1 fl e0 e1 e2 e3 (framesBytes fs) hflags2 hmark]
  rw [parse_frames_framesBytes fs hfs]
  have hdec : convert_safesynch_to_u32 e0 e1 e2 e3 = (framesBytes fs).length := by
    have h := decode_encode32 ((framesBytes fs).length)
    rw [henc] at h
    simp only [List.getD_cons_zero, List.getD_cons_succ] at h
    rwa [Nat.mod_eq_of_lt hFBlt] at h
  rw [hdec, ← hsz3]

/-- A concrete well-formed text-only tag: one TIT2 frame, payload
encoding 3 and text "AB", stored size field 13 = frame header 10 +
payload 3 = emitted length 23 − 10. -/
def cexWfTag : Id3v2Tag :=
  ⟨⟨0x49, 0x44, 0x33, 4, 0, 0, 13⟩, none,
   [.text ⟨⟨0x54, 0x49, 0x54, 0x32, 3, 0, 0⟩, ⟨3, [65, 66]⟩⟩], none⟩

theorem parse_roundtrip_text_only_witness :
    parse_tag cexWfTag.into_bytes = .ok cexWfTag :=
  parse_roundtrip_text_only cexWfTag
    ⟨rfl, rfl, rfl, rfl, rfl, rfl,
     fun f hf => by
       have hf2 : f ∈ [Frame.text ⟨⟨0x54, 0x49, 0x54, 0x32, 3, 0, 0⟩, ⟨3, [65, 66]⟩⟩] := hf
       rw [List.mem_singleton] at hf2
       exact ⟨_, hf2, by decide, rfl, by decide⟩,
     by decide, by decide, by decide⟩

/-! ## Claim C3 -/

/-- C3: the second half of the claim is a code bug.  The first call of
`set_cover_art` on a tag with no APIC frame appends exactly one frame and
adds its full serialized length (10-byte header + 13-byte payload) to the
header size field, as claimed; but a second call with a different picture
APPENDS A SECOND APIC frame instead of replacing the first: the
`iter().position` closure matches only `Frame::Text` frames against
"APIC" (src/tag.rs lines 261-264), so the Picture frame inserted by the
first call is never found and the replace branch is unreachable. -/
theorem set_cover_art_appends_twice :
    cexEmptyTag.set_cover_art cexPicA = .ok (.ok (), cexTagAfterA)
      ∧ cexTagAfterA.frames.length = 1
      ∧ cexTagAfterA.set_cover_art cexPicB = .ok (.ok (), cexTagAfterAB)
      ∧ cexTagAfterAB.frames.length = 2 := by
  decide

/-! ## Claim C4: counterexample -/

/-- C4 is false: a frame region of a single non-zero byte (fewer than 11
bytes, no padding sentinel) makes `parse_tag` return `Ok` with the frames
collected so far — `parse_frames` prints a warning and returns normally,
so no `TruncatedFrame`-style error exists anywhere in the crate; a
frame region consisting of zero bytes only, fewer than 4 of them, makes
the sentinel check index past the end of the buffer (a panic); and a
1-byte non-UTF-8 tail such as `[0xFF]` makes the
`String::from_utf8(..).unwrap()` inside the warning `println!` panic —
so frame parsing is not panic-free or read-safe either. -/
theorem parse_tag_truncated_tail_cex :
    parse_tag cexTruncatedInput = .ok ⟨⟨0x49, 0x44, 0x33, 4, 0, 0, 1⟩, none, [], none⟩
      ∧ parse_frames [0, 0] = .error .panic
      ∧ parse_frames [0xFF] = .error .panic := by
  decide

/-- C4 amended: when at the current scan offset between 1 and 10 bytes
remain, frame parsing does NOT report an error: provided the remaining
bytes are not fewer than 4 and all zero (in which case the sentinel check
indexes past the end of the buffer and panics), and provided they are
valid UTF-8 (otherwise the `String::from_utf8(..).unwrap()` in the
warning `println!` at src/parse.rs lines 205-209 panics), `parse_frames`
logs the warning and returns the frames collected so far — here, scanning
from the start of such a region, the empty list — and `parse_tag`
therefore returns `Ok` with a truncated frame list (see the
counterexample for the `Ok` outcome and for both panic cases). -/
theorem parse_frames_short_tail_no_error (bs : List Nat)
    (h1 : 1 ≤ bs.length) (h2 : bs.length < 11)
    (h3 : ¬ (bs.length < 4 ∧ ∀ b ∈ bs, b = 0))
    (h4 : utf8Valid bs = true) :
    parse_frames bs = .ok [] := by
  rw [parse_frames_unfold]
  have hne : bs.isEmpty = false := by
    cases bs
    · simp at h1
    · rfl
  simp only [hne, Bool.false_eq_true, if_false]
  cases hsc : sentinelCheck bs with
  | error e => exact absurd hsc (sentinelCheck_ne_error bs h3 h1 e)
  | ok v =>
    cases v
    · dsimp only
      rw [if_pos h2, if_pos h4]
    · rfl

theorem parse_frames_short_tail_no_error_witness :
    (1 ≤ [7, 0, 0].length ∧ [7, 0, 0].length < 11 ∧ utf8Valid [7, 0, 0] = true)
      ∧ parse_frames [7, 0, 0] = .ok [] :=
  ⟨by decide,
   parse_frames_short_tail_no_error [7, 0, 0] (by decide) (by decide) (by decide) (by decide)⟩

/-! ## Claim C5: counterexample -/

/-- C5 is false: on a tag containing a frame with the unknown identifier
"TXXX", `parse_frame` does produce `Err("Unknown frame id TXXX")`, but
`parse_frames` calls `.unwrap()` on it (src/parse.rs line 216), so the
whole decode PANICS; `parse_tag` never returns the `UnknownFrame` error
through its `Result`. -/
theorem parse_tag_unknown_frame_cex :
    parse_tag cexUnknownFrameInput = .error .panic
      ∧ parse_tag cexUnknownFrameInput
          ≠ .error (.rerr (.unknownFrame [0x54, 0x58, 0x58, 0x58])) := by
  decide

lemma exists_heads6 {l : List Nat} (h : 6 ≤ l.length) :
    ∃ a b c d e f t, l = a :: b :: c :: d :: e :: f :: t := by
  rcases l with _ | ⟨a, _ | ⟨b, _ | ⟨c, _ | ⟨d, _ | ⟨e, _ | ⟨f, t⟩⟩⟩⟩⟩⟩
  · simp at h
  · simp at h
  · simp at h
  · simp at h
  · simp at h
  · simp at h
  · exact ⟨a, b, c, d, e, f, t, rfl⟩

lemma extract_frame_take {bs : List Nat} {fb : List Nat} {endo : Nat}
    (h : extract_frame bs = .ok (fb, endo)) : fb = bs.take endo := by
  simp only [extract_frame] at h
  split at h
  · split at h
    · rw [Except.ok.injEq, Prod.mk.injEq] at h
      obtain ⟨h1, h2⟩ := h
      rw [← h1, h2]
    · exact absurd h (by simp)
  · exact absurd h (by simp)

lemma extract_frame_err {bs : List Nat} {e : Fail}
    (h : extract_frame bs = .error e) : e = .panic := by
  simp only [extract_frame] at h
  split at h
  · split at h
    · exact absurd h (by simp)
    · rw [Except.error.injEq] at h
      exact h.symm
  · rw [Except.error.injEq] at h
    exact h.symm

/-- On a frame region whose first frame bears a 4-byte identifier that is
none of the six recognized ones (and is not the padding sentinel),
`parse_frames` always panics: either the frame slice overruns the buffer,
or the identifier is invalid UTF-8, or `parse_frame` returns the
`UnknownFrame` error and the `.unwrap()` at src/parse.rs line 216 turns it
into a panic. -/
lemma parse_frames_unknown_first (region : List Nat)
    (hlen : 11 ≤ region.length)
    (hsent : region.take 4 ≠ [0, 0, 0, 0])
    (hid : ¬ (region.take 4 = strTIT2 ∨ region.take 4 = strTALB
        ∨ region.take 4 = strTPE1 ∨ region.take 4 = strTPE2
        ∨ region.take 4 = strTSSE ∨ region.take 4 = strAPIC)) :
    parse_frames region = .error .panic := by
  rw [parse_frames_unfold]
  obtain ⟨a, b, c, d, t, rfl⟩ := exists_heads4 (by omega : 4 ≤ region.length)
  have htk : (a :: b :: c :: d :: t).take 4 = [a, b, c, d] := rfl
  rw [htk] at hsent hid
  have hie : (a :: b :: c :: d :: t).isEmpty = false := rfl
  simp only [hie, Bool.false_eq_true, if_false]
  rw [sentinelCheck_cons4]
  have hv : (decide (a = 0) && decide (b = 0) && decide (c = 0) && decide (d = 0))
      = false := by
    by_contra hx
    rw [Bool.not_eq_false] at hx
    simp only [Bool.and_eq_true, decide_eq_true_eq] at hx
    obtain ⟨⟨⟨h1, h2⟩, h3⟩, h4⟩ := hx
    exact hsent (by rw [h1, h2, h3, h4])
  rw [hv]
  dsimp only
  rw [if_neg (by simp only [List.length_cons] at hlen ⊢; omega)]
  cases hex : extract_frame (a :: b :: c :: d :: t) with
  | error e =>
    rw [extract_frame_err hex]
  | ok p =>
    obtain ⟨fb, endo⟩ := p
    dsimp only
    have hb := extract_frame_bounds hex
    have hfb := extract_frame_take hex
    have hfb2 : fb = a :: b :: c :: d :: t.take (endo - 4) := by
      rw [hfb]
      conv_lhs => rw [show endo = endo - 4 + 1 + 1 + 1 + 1 by omega]
      rfl
    have hlt : 6 ≤ (t.take (endo - 4)).length := by
      rw [List.length_take]
      have h1 := hb.1
      have h2 := hb.2
      simp only [List.length_cons] at h2
      omega
    obtain ⟨e4, e5, e6, e7, e8, e9, t2, hsub⟩ := exists_heads6 hlt
    have hfb3 : fb = a :: b :: c :: d :: e4 :: e5 :: e6 :: e7 :: e8 :: e9 :: t2 := by
      rw [hfb2, hsub]
    have hid5 : ¬ ([a, b, c, d] = strTIT2 ∨ [a, b, c, d] = strTALB
        ∨ [a, b, c, d] = strTPE1 ∨ [a, b, c, d] = strTPE2
        ∨ [a, b, c, d] = strTSSE) := fun hx => hid (by tauto)
    have hapic : ¬ ([a, b, c, d] = strAPIC) := fun hx => hid (by tauto)
    have hpf : ∃ E, parse_frame fb = .error E := by
      rw [hfb3]
      simp only [parse_frame]
      by_cases hv2 : utf8Valid [a, b, c, d] = true
      · refine ⟨.rerr (.unknownFrame [a, b, c, d]), ?_⟩
        rw [if_pos hv2, if_neg hid5, if_neg hapic]
      · exact ⟨.panic, by rw [if_neg hv2]⟩
    obtain ⟨E, hpfe⟩ := hpf
    rw [hpfe]
    rfl

/-- C5 amended: a tag whose frame region opens with a frame bearing an
identifier that is none of TIT2/TPE1/TALB/TPE2/TSSE/APIC makes the whole
decode fail by PANIC, not by an `Err` return: `parse_frame` builds the
`UnknownFrame` error, but `parse_frames` immediately `.unwrap()`s it
(src/parse.rs line 216) — and when the identifier bytes are not valid
UTF-8, or the declared frame size overruns the region, the panic comes
even earlier.  No incomplete Tag is exposed, but `parse_tag` never returns
the `UnknownFrame` error through its `Result` (see the counterexample). -/
theorem parse_tag_unknown_frame_panics
    (v1 v2 fl s0 s1 s2 s3 : Nat) (region : List Nat)
    (hfl : fl &&& 64 = 0)
    (hlen : 11 ≤ region.length)
    (hsent : region.take 4 ≠ [0, 0, 0, 0])
    (hid : ¬ (region.take 4 = strTIT2 ∨ region.take 4 = strTALB
        ∨ region.take 4 = strTPE1 ∨ region.take 4 = strTPE2
        ∨ region.take 4 = strTSSE ∨ region.take 4 = strAPIC))
    (hfoot : ((region.getD (region.length - 10) 0 == 0x33)
        && (region.getD (region.length - 9) 0 == 0x44)
        && (region.getD (region.length - 8) 0 == 0x49)) = false) :
    parse_tag ([0x49, 0x44, 0x33, v1, v2, fl, s0, s1, s2, s3] ++ region)
      = .error .panic := by
  have hL : ([0x49, 0x44, 0x33, v1, v2, fl, s0, s1, s2, s3] ++ region).length
      = region.length + 10 := by
    simp only [List.length_append, List.length_cons, List.length_nil]
    omega
  have hg : ∀ i, ([0x49, 0x44, 0x33, v1, v2, fl, s0, s1, s2, s3] ++ region).getD (i + 10) 0
      = region.getD i 0 := fun i => rfl
  have hfp : ((([0x49, 0x44, 0x33, v1, v2, fl, s0, s1, s2, s3] ++ region).getD
        (([0x49, 0x44, 0x33, v1, v2, fl, s0, s1, s2, s3] ++ region).length - 10) 0 == 0x33)
      && (([0x49, 0x44, 0x33, v1, v2, fl, s0, s1, s2, s3] ++ region).getD
        (([0x49, 0x44, 0x33, v1, v2, fl, s0, s1, s2, s3] ++ region).length - 9) 0 == 0x44)
      && (([0x49, 0x44, 0x33, v1, v2, fl, s0, s1, s2, s3] ++ region).getD
        (([0x49, 0x44, 0x33, v1, v2, fl, s0, s1, s2, s3] ++ region).length - 8) 0 == 0x49))
      = false := by
    rw [show ([0x49, 0x44, 0x33, v1, v2, fl, s0, s1, s2, s3] ++ region).length - 10
          = (region.length - 10) + 10 by rw [hL]; omega,
        show ([0x49, 0x44, 0x33, v1, v2, fl, s0, s1, s2, s3] ++ region).length - 9
          = (region.length - 9) + 10 by rw [hL]; omega,
        show ([0x49, 0x44, 0x33, v1, v2, fl, s0, s1, s2, s3] ++ region).length - 8
          = (region.length - 8) + 10 by rw [hL]; omega,
        hg, hg, hg]
    exact hfoot
  rw [parse_tag_no_ext v1 v2 fl s0 s1 s2 s3 region hfl hfp,
    parse_frames_unknown_first region hlen hsent hid]

theorem parse_tag_unknown_frame_panics_witness :
    parse_tag ([0x49, 0x44, 0x33, 4, 0, 0, 0, 0, 0, 1]
        ++ [0x54, 0x59, 0x59, 0x59, 0, 0, 0, 1, 0, 0, 8]) = .error .panic :=
  parse_tag_unknown_frame_panics 4 0 0 0 0 0 1
    [0x54, 0x59, 0x59, 0x59, 0, 0, 0, 1, 0, 0, 8]
    (by decide) (by decide) (by decide) (by decide) (by decide)

/-! ## Claim C6: counterexample -/

/-- C6 is false: on the payload `[0x03, 0x61]` the scanner reaches the end
of the buffer still in the MIME stage (no 0x00 terminator was found), yet
`extract_picture` returns `Ok`: the unterminated byte is kept in
`mime_bytes` (mapped to `MimeType::Unknown`), the later fields keep their
defaults, and no error of any kind is surfaced. -/
theorem extract_picture_unterminated_cex :
    extract_picture [0x03, 0x61] = .ok ⟨0x03, strImageUnknown, 0x03, [], []⟩ := by
  decide

lemma pic_step_mime_accum (rest : List Nat) (h : ∀ b ∈ rest, b ≠ 0) :
    ∀ a : PicAccum, a.stage = .mime →
      rest.foldl pic_step a = { a with mime_bytes := a.mime_bytes ++ rest } := by
  induction rest with
  | nil =>
    intro a _
    simp
  | cons b r ih =>
    intro a ha
    rw [List.foldl_cons]
    have hb : b ≠ 0 := h b (List.mem_cons_self b r)
    have hstep : pic_step a b = { a with mime_bytes := a.mime_bytes ++ [b] } := by
      unfold pic_step
      rw [ha]
      dsimp only
      rw [if_neg hb]
    rw [hstep, ih (fun x hx => h x (List.mem_cons_of_mem b hx))]
    · simp [List.append_assoc]
    · exact ha

/-- C6 amended: when the scanner reaches the end of a picture payload
without ever finding the 0x00 terminator of the MIME string, no decode
error is surfaced: `extract_picture` returns `Ok` with every scanned byte
absorbed into `mime_bytes` (then collapsed through the `MimeType` match),
the picture type and description left at their defaults, and no data —
the fields are silently merged, exactly what the claim says must not
happen.  (The only failure the function can produce on such input is a
UTF-8 panic from `String::from_utf8(..).unwrap()`, hence the validity
hypothesis; an unterminated description merges likewise.) -/
theorem extract_picture_unterminated_ok (enc : Nat) (rest : List Nat)
    (h0 : ∀ b ∈ rest, b ≠ 0) (hu : utf8Valid rest = true) :
    extract_picture (enc :: rest) = .ok ⟨enc, canonMime rest, 0x03, [], []⟩ := by
  have hfold : (enc :: rest).foldl pic_step picInit
      = ⟨enc, rest, 0x03, [], [], .mime⟩ := by
    rw [List.foldl_cons]
    have h1 : pic_step picInit enc = ⟨enc, [], 0x03, [], [], .mime⟩ := rfl
    rw [h1, pic_step_mime_accum rest h0 _ rfl]
    simp
  unfold extract_picture
  rw [hfold]
  have hd : utf8Valid ([] : List Nat) = true := rfl
  simp [hu, hd]

theorem extract_picture_unterminated_ok_witness :
    ((∀ b ∈ [0x62], b ≠ 0) ∧ utf8Valid [0x62] = true)
      ∧ extract_picture [0x03, 0x62] = .ok ⟨0x03, strImageUnknown, 0x03, [], []⟩ := by
  refine ⟨by decide, ?_⟩
  have h := extract_picture_unterminated_ok 0x03 [0x62] (by decide) (by decide)
  have hcm : canonMime [0x62] = strImageUnknown := by decide
  rwa [hcm] at h

/-! ## Claim C7: counterexample -/

/-- C7 is false for the text setters: on a tag whose first (and only)
frame bearing identifier "TIT2" is a PICTURE frame, `set_song_title`
returns `Ok(())` and mutates the tag — the search closure matches only
Text frames (src/tag.rs lines 232-235), so the Picture frame is skipped
and a brand-new TIT2 Text frame is appended. -/
theorem set_song_title_mismatch_cex :
    cexKindClashTag.set_song_title [0x58] = .ok (.ok (), cexKindClashTagAfter)
      ∧ cexKindClashTagAfter ≠ cexKindClashTag := by
  decide

lemma findTextIdx_some {fid : List Nat} :
    ∀ (fs : List Frame) (k i : Nat), findTextIdx fid fs k = .ok (some i) →
      ∃ tf : Id3v2TextFrame,
        fs.get? (i - k) = some (.text tf) ∧ tf.header.idBytes = fid ∧ k ≤ i := by
  intro fs
  induction fs with
  | nil =>
    intro k i h
    simp [findTextIdx] at h
  | cons f rest ih =>
    intro k i h
    cases f with
    | text tf =>
      simp only [findTextIdx] at h
      by_cases hv : utf8Valid tf.header.idBytes
      · rw [if_pos hv] at h
        by_cases heq : tf.header.idBytes = fid
        · rw [if_pos heq] at h
          rw [Except.ok.injEq, Option.some.injEq] at h
          subst h
          exact ⟨tf, by simp, heq, Nat.le_refl k⟩
        · rw [if_neg heq] at h
          obtain ⟨tf2, hget, hid, hk⟩ := ih (k + 1) i h
          refine ⟨tf2, ?_, hid, by omega⟩
          rw [show i - k = (i - (k + 1)) + 1 by omega]
          simpa using hget
      · rw [if_neg hv] at h
        exact absurd h (by simp)
    | picture pf =>
      simp only [findTextIdx] at h
      obtain ⟨tf2, hget, hid, hk⟩ := ih (k + 1) i h
      refine ⟨tf2, ?_, hid, by omega⟩
      rw [show i - k = (i - (k + 1)) + 1 by omega]
      simpa using hget

/-- C7 amended: only the cover-art setter detects the kind mismatch.
Whenever the frame search of `set_attached_picture_frame` — which only
inspects Text frames — finds a Text frame bearing identifier "APIC",
`set_cover_art` fails with the mismatch error
("attempting to set a non-text frame as a picture frame") and returns the
tag completely unchanged; the four text setters, by contrast, never
report a mismatch: a Picture frame carrying the text identifier is
invisible to their search, so they append a fresh Text frame instead
(see the counterexample). -/
theorem set_cover_art_mismatch_error (t : Id3v2Tag) (p : Picture) (i : Nat)
    (h : findTextIdx strAPIC t.frames 0 = .ok (some i)) :
    t.set_cover_art p = .ok (.error .nonTextAsPicture, t) := by
  obtain ⟨tf, hget, hid, _⟩ := findTextIdx_some t.frames 0 i h
  rw [Nat.sub_zero] at hget
  unfold Id3v2Tag.set_cover_art Id3v2Tag.set_attached_picture_frame
  rw [h]
  dsimp only
  rw [hget]

/-- A tag whose only frame is a TEXT frame carrying identifier "APIC". -/
def cexApicTextTag : Id3v2Tag :=
  ⟨⟨0x49, 0x44, 0x33, 4, 0, 0, 7⟩, none,
   [.text ⟨⟨0x41, 0x50, 0x49, 0x43, 2, 0, 0⟩, ⟨3, [5]⟩⟩], none⟩

theorem set_cover_art_mismatch_error_witness :
    findTextIdx strAPIC cexApicTextTag.frames 0 = .ok (some 0)
      ∧ cexApicTextTag.set_cover_art cexPicA = .ok (.error .nonTextAsPicture, cexApicTextTag) :=
  ⟨by decide, set_cover_art_mismatch_error cexApicTextTag cexPicA 0 (by decide)⟩

/-! ## Claim C8 -/

/-- C8 is a code bug in `extract_tag`: on a file made of a 10-byte
frameless tag (size field 0) followed by 13 audio bytes, the function
returns `bytes[..10]` and `bytes[11..]` — the audio byte at index 10
(value 1) is dropped, so the concatenation of the two returned vectors is
NOT the input file.  (The footer probe also reads bytes 20..22, i.e.
`total_tag_size+10..total_tag_size+12`, which lie beyond the candidate tag
— and panics when the file is shorter than `total_tag_size + 13`.) -/
theorem extract_tag_drops_byte :
    extract_tag cexFileInput
        = .ok ([0x49, 0x44, 0x33, 4, 0, 0, 0, 0, 0, 0],
               [2, 3, 4, 5, 6, 7, 8, 9, 10, 11, 12, 13])
      ∧ [0x49, 0x44, 0x33, 4, 0, 0, 0, 0, 0, 0]
          ++ [2, 3, 4, 5, 6, 7, 8, 9, 10, 11, 12, 13] ≠ cexFileInput
      ∧ extract_tag ([0x49, 0x44, 0x33, 4, 0, 0, 0, 0, 0, 0] ++ [1, 2])
          = .error .panic := by
  decide

end Alloy
